import Mathlib

/-!
# Provider layer of `thunder`: REST adapters and the local delegate

A shallow embedding of

* `backend/internal/userprovider/rest_user_provider.go`
* `backend/internal/userprovider/default_user_provider.go`
* `backend/internal/authnprovider/rest_authn_provider.go`
* `backend/internal/authnprovider/init.go`
* `backend/internal/system/i18n/mgt/middleware.go` (`recursiveTranslate`)

Go pointers that may be nil are `Option`s, a Go `(result, error)` return is a
pair of `Option`s.  The Go standard library the providers call (the HTTP
transport, `encoding/json`, `net/url`) is an explicit environment: every
theorem is stated for an arbitrary environment, so it holds whatever the
peer answers and whatever the decoders do with a body.
-/

set_option autoImplicit false

/-! ## `net/http` as the providers use it -/

namespace nethttp

/-- Go `http.StatusOK`. -/
def StatusOK : Int := 200

/-- Go `http.StatusCreated`. -/
def StatusCreated : Int := 201

/-- Go `http.MethodGet`. -/
def MethodGet : String := "GET"

/-- Go `http.MethodPost`. -/
def MethodPost : String := "POST"

/-- Go `http.MethodPut`. -/
def MethodPut : String := "PUT"

/-- Characters allowed in a header field name (an RFC 7230 token). -/
def validHeaderFieldChar (c : Char) : Bool :=
  c.isAlphanum || "!#$%&*+-.^_|~".data.contains c || c = Char.ofNat 39 || c = Char.ofNat 96

/-- The letter-case pass of `CanonicalMIMEHeaderKey`: upper case at the start
and after a hyphen, lower case elsewhere. -/
def canonicalChars : Bool → List Char → List Char
  | _, [] => []
  | upper, c :: cs =>
    (if upper then c.toUpper else c.toLower) :: canonicalChars (c = '-') cs

/-- Go `textproto.CanonicalMIMEHeaderKey`: a key with a character outside the
token alphabet is returned unchanged. -/
def CanonicalMIMEHeaderKey (key : String) : String :=
  if key.data.all validHeaderFieldChar then String.mk (canonicalChars true key.data) else key

/-- Go `http.Header`, the fields in the order they were set. -/
abbrev Header := List (String × String)

/-- Go `Header.Set`: replaces whatever was stored under the canonical key. -/
def Header.Set (h : Header) (key value : String) : Header :=
  (CanonicalMIMEHeaderKey key, value) :: h.filter (fun kv => kv.1 ≠ CanonicalMIMEHeaderKey key)

/-- Go `Header.Get`: the first value stored under the canonical key, `""` when
there is none. -/
def Header.Get (h : Header) (key : String) : String :=
  match h.find? (fun kv => kv.1 = CanonicalMIMEHeaderKey key) with
  | some kv => kv.2
  | none => ""

/-- Go `http.Request`, the parts a peer can observe.  `URL` is the string the
request was built from; `http.NewRequest` parses it and the peer sees its
escaped rendering. -/
structure Request where
  Method : String
  URL : String
  Header : Header
  Body : Option String
deriving DecidableEq, Repr

/-- Go `http.Response` with a body stream of type `B`. -/
structure Response (B : Type) where
  StatusCode : Int
  Body : B

/-- Go `http.Client{Timeout: ...}`; the duration is in nanoseconds. -/
structure Client where
  Timeout : Int
deriving DecidableEq, Repr

/-- The world outside the process, as one call sees it.  `requestError m u` is
the failure text of `http.NewRequest` for method `m` and URL `u` (`none` when
the request can be built); `roundTrip c r` is what `c.Do(r)` reports: the
text of a transport failure, or the response. -/
structure Transport (B : Type) where
  requestError : String → String → Option String
  roundTrip : Client → Request → Except String (Response B)

/-- What one call on the HTTP client did: the requests handed to the
transport and what the client returned. -/
structure Exchange (B : Type) where
  sent : List Request
  result : Except String (Response B)

/-- Go `http.NewRequest`. -/
def NewRequest {B : Type} (net : Transport B) (method url : String) (body : Option String) :
    Except String Request :=
  match net.requestError method url with
  | some err => .error err
  | none => .ok { Method := method, URL := url, Header := [], Body := body }

/-- Go `Client.Do`. -/
def Client.Do {B : Type} (c : Client) (net : Transport B) (req : Request) : Exchange B :=
  { sent := [req], result := net.roundTrip c req }

/-- Go `Client.Get`: `NewRequest("GET", url, nil)` then `Do`. -/
def Client.Get {B : Type} (c : Client) (net : Transport B) (url : String) : Exchange B :=
  match NewRequest net MethodGet url none with
  | .error err => { sent := [], result := .error err }
  | .ok req => c.Do net req

/-- Go `Client.Post`: `NewRequest("POST", url, body)`, the content type header,
then `Do`. -/
def Client.Post {B : Type} (c : Client) (net : Transport B) (url contentType body : String) :
    Exchange B :=
  match NewRequest net MethodPost url (some body) with
  | .error err => { sent := [], result := .error err }
  | .ok req => c.Do net { req with Header := req.Header.Set "Content-Type" contentType }

/-- The record of one provider call: the requests that reached the transport,
what the HTTP client returned when it was invoked (`none` when the call
ended before), and the value the Go function returns. -/
structure Call (B α : Type) where
  sent : List Request
  reply : Option (Except String (Response B))
  ret : α

/-- A call that returns `ret` before the HTTP client is invoked. -/
def Call.early {B α : Type} (ret : α) : Call B α :=
  { sent := [], reply := none, ret := ret }

/-- A call that returns `ret` after the client exchange `x`. -/
def Call.after {B α : Type} (x : Exchange B) (ret : α) : Call B α :=
  { sent := x.sent, reply := some x.result, ret := ret }

end nethttp

/-! ## `net/url` as `GetUserGroups` uses it -/

namespace neturl

/-- Go `url.URL`, split where `GetUserGroups` touches it: `Head` is the
rendering of everything before the query (scheme, authority, path),
`Fragment` the escaped fragment. -/
structure URL where
  Head : String
  ForceQuery : Bool
  RawQuery : String
  Fragment : String
deriving DecidableEq, Repr

/-- Go `url.Values` (`map[string][]string`) as an association list. -/
abbrev Values := List (String × List String)

/-- Go `Values.Set`: the key now maps to the single value. -/
def Values.Set (v : Values) (key value : String) : Values :=
  (key, [value]) :: v.filter (fun kv => kv.1 ≠ key)

/-- All values stored under `key` (Go `v[key]`). -/
def Values.All (v : Values) (key : String) : List String :=
  (v.filter (fun kv => kv.1 = key)).flatMap (fun kv => kv.2)

/-- Go `Values.Get`: the first value under `key`, `""` when there is none. -/
def Values.Get (v : Values) (key : String) : String :=
  (Values.All v key).headD ""

/-- One hexadecimal digit, upper case. -/
def hexDigit (n : Nat) : Char :=
  if n < 10 then Char.ofNat (48 + n) else Char.ofNat (55 + n)

/-- Go `url.QueryEscape` on one character: unreserved characters stay, a space
becomes `+`, every other byte of the UTF-8 encoding becomes `%XX`. -/
def escapeChar (c : Char) : List Char :=
  if c.isAlphanum || c = '-' || c = '_' || c = '.' || c = '~' then [c]
  else if c = ' ' then ['+']
  else (String.utf8EncodeChar c).flatMap
    (fun b => ['%', hexDigit (b.toNat / 16), hexDigit (b.toNat % 16)])

/-- Go `url.QueryEscape`. -/
def QueryEscape (s : String) : String :=
  String.mk (s.data.flatMap escapeChar)

/-- Lexicographic order on keys, character by character (the order of Go
`sort.Strings`: code point order is the byte order of UTF-8). -/
def keyLess : List Char → List Char → Bool
  | _, [] => false
  | [], _ :: _ => true
  | a :: as, b :: bs => a.toNat < b.toNat || (a.toNat = b.toNat && keyLess as bs)

/-- Insertion of a pair into a list ordered by key. -/
def insertByKey (kv : String × List String) : Values → Values
  | [] => [kv]
  | x :: xs => if keyLess kv.1.data x.1.data then kv :: x :: xs else x :: insertByKey kv xs

/-- The pairs ordered by key, as `Values.Encode` visits them. -/
def sortByKey (v : Values) : Values :=
  v.foldr insertByKey []

/-- Go `Values.Encode`: `key=value` pairs joined by `&`, keys in sorted order. -/
def Values.Encode (v : Values) : String :=
  "&".intercalate
    ((sortByKey v).flatMap (fun kv => kv.2.map (fun x => QueryEscape kv.1 ++ "=" ++ QueryEscape x)))

/-- Go `URL.String`, from the query on. -/
def URL.String (u : URL) : String :=
  u.Head ++ (if u.ForceQuery || u.RawQuery ≠ "" then "?" ++ u.RawQuery else "")
    ++ (if u.Fragment ≠ "" then "#" ++ u.Fragment else "")

end neturl

/-! ## `encoding/json` decoding into flat records -/

namespace encodingjson

/-- A JSON value. -/
inductive Value where
  | null
  | bool (b : Bool)
  | number (lit : String)
  | string (s : String)
  | array (items : List Value)
  | object (members : List (String × Value))

/-- A response body as `json.NewDecoder(body).Decode` meets it: either the
stream does not start with a well-formed JSON value (an empty body
included) and the decoder fails with `reason`, or it starts with `v`. -/
inductive Body where
  | malformed (reason : String)
  | value (v : Value)

/-- The name `encoding/json` gives a value's kind in a type error. -/
def Value.kind : Value → String
  | .null => "null"
  | .bool _ => "bool"
  | .number _ => "number"
  | .string _ => "string"
  | .array _ => "array"
  | .object _ => "object"

/-- One character under the case folding `encoding/json` matches keys with.
The field names of the records here are ASCII, and the characters that fold
onto an ASCII letter are its two cases, the long s (U+017F, onto `s`) and
the Kelvin sign (U+212A, onto `k`); any other character folds onto no ASCII
letter and is left as it is. -/
def foldChar (c : Char) : Char :=
  if c.toNat = 383 then 's'
  else if c.toNat = 8490 then 'k'
  else c.toLower

/-- Key folding for the case-insensitive match of object keys to fields. -/
def foldKey (s : String) : List Char :=
  s.data.map foldChar

/-- The field an object key is stored in: the exact name first, otherwise a
name equal up to letter case; `none` for a key that is ignored. -/
def findField (fields : List String) (key : String) : Option String :=
  match fields.find? (fun f => f = key) with
  | some f => some f
  | none => fields.find? (fun f => foldKey f = foldKey key)

/-- The part of a type name after its last dot: the struct name without the
package, as the error of a field names it. -/
def bareName (typeName : String) : String :=
  String.mk (((typeName.data.reverse.takeWhile (fun c => c ≠ '.')).reverse))

/-- The state of decoding an object into a record of string fields: the
values stored so far and the first type error met. -/
structure Fields where
  stored : List (String × String)
  failure : Option String

/-- One member of the object: a JSON string is stored in its field
(a later member overwrites an earlier one), `null` leaves the field alone,
any other value is a type error; decoding goes on after an error and
reports the first one. -/
def storeMember (typeName : String) (fields : List String) (st : Fields)
    (member : String × Value) : Fields :=
  match findField fields member.1 with
  | none => st
  | some f =>
    match member.2 with
    | .string s => { st with stored := (f, s) :: st.stored.filter (fun kv => kv.1 ≠ f) }
    | .null => st
    | v =>
      match st.failure with
      | some _ => st
      | none =>
        { st with failure := some ("json: cannot unmarshal " ++ v.kind ++
            " into Go struct field " ++ bareName typeName ++ "." ++ f ++ " of type string") }

/-- The value of a field after decoding, the zero value `""` when no member
set it. -/
def Fields.get (st : Fields) (field : String) : String :=
  match st.stored.find? (fun kv => kv.1 = field) with
  | some kv => kv.2
  | none => ""

/-- Decoding a body into a zero-initialised record whose fields are all
strings with the given JSON keys: `null` leaves the record at its zero
value, an object fills the fields it names and ignores other keys, any
other value is a type error. -/
def decodeStrings (typeName : String) (fields : List String) : Body → Except String Fields
  | .malformed reason => .error reason
  | .value .null => .ok { stored := [], failure := none }
  | .value (.object members) =>
    let st := members.foldl (storeMember typeName fields) { stored := [], failure := none }
    match st.failure with
    | some err => .error err
    | none => .ok st
  | .value v =>
    .error ("json: cannot unmarshal " ++ v.kind ++ " into Go value of type " ++ typeName)

/-- Decoding a body into the empty record `struct{}`. -/
def decodeEmpty (typeName : String) (b : Body) : Except String Unit :=
  match decodeStrings typeName [] b with
  | .error err => .error err
  | .ok _ => .ok ()

end encodingjson

/-! ## Package `userprovider` -/

namespace userprovider

open nethttp

/-- Go `UserProviderError`: the structured error of the user provider. -/
structure UserProviderError where
  Code : String
  Message : String
  Description : String
deriving DecidableEq, Repr

/-- Modelled from the spec: the taxonomy constant `ErrorCodeSystemError`, whose
declaration is not among the files at hand; the spec writes the code
`SystemError`. -/
def ErrorCodeSystemError : String := "SystemError"

/-- Modelled from the spec: the taxonomy constant `ErrorCodeUserNotFound`, whose
declaration is not among the files at hand; the spec writes the code
`UserNotFound`. -/
def ErrorCodeUserNotFound : String := "UserNotFound"

/-- Modelled from the spec: the constructor `NewUserProviderError(code, message,
description)`, declared outside the files at hand, builds the error value
from its three arguments in this order. -/
def NewUserProviderError (code message description : String) : UserProviderError :=
  { Code := code, Message := message, Description := description }

/-- Go `User` as `defaultUserProvider.GetUser` fills it; `Attributes` is the raw
JSON text. -/
structure User where
  UserID : String
  UserType : String
  OU : String
  Attributes : String
deriving DecidableEq, Repr

/-- Go `RestUserProvider`. -/
structure RestUserProvider where
  baseURL : String
  httpClient : Client
deriving DecidableEq, Repr

/-- Go `IdentifyUserRequest`; `F` is the type of filter mappings. -/
structure IdentifyUserRequest (F : Type) where
  Filters : F

/-- Go `IdentifyUserResponse`. -/
structure IdentifyUserResponse where
  UserID : String
deriving DecidableEq, Repr

/-- What the REST user provider takes from outside the package.  `B` is the
type of response bodies, `F` of filter mappings, `U` of user records and
`G` of group pages: the adapter only encodes and decodes them.  A `marshal`
field is `json.Marshal` (failure text or the encoded bytes), a `decode`
field is `json.NewDecoder(body).Decode(&v)` on a zero `v` (failure text or
the decoded value), `urlParse` is `url.Parse` and `parseQuery` is what
`URL.Query()` makes of a raw query. -/
structure Runtime (B F U G : Type) where
  net : Transport B
  marshalIdentifyUserRequest : IdentifyUserRequest F → Except String String
  marshalUser : Option U → Except String String
  decodeIdentifyUserResponse : B → Except String IdentifyUserResponse
  decodeUser : B → Except String U
  decodeUserGroupListResponse : B → Except String G
  decodeUserProviderError : B → Except String UserProviderError
  urlParse : String → Except String neturl.URL
  parseQuery : String → neturl.Values

/-- Go `NewRestUserProvider(baseURL, timeout)`. -/
def NewRestUserProvider (baseURL : String) (timeout : Int) : RestUserProvider :=
  { baseURL := baseURL, httpClient := { Timeout := timeout } }

/-- Go `RestUserProvider.createSystemError`; `err` is the text of `err.Error()`. -/
def RestUserProvider.createSystemError (_p : RestUserProvider) (msg err : String) :
    UserProviderError :=
  NewUserProviderError ErrorCodeSystemError msg err

/-- Go `RestUserProvider.decodeError`. -/
def RestUserProvider.decodeError {B F U G : Type} (p : RestUserProvider) (rt : Runtime B F U G)
    (body : B) : UserProviderError :=
  match rt.decodeUserProviderError body with
  | .error err => p.createSystemError "Failed to decode error response" err
  | .ok userProviderError => userProviderError

/-- Go `RestUserProvider.IdentifyUser`. -/
def RestUserProvider.IdentifyUser {B F U G : Type} (p : RestUserProvider) (rt : Runtime B F U G)
    (filters : F) : Call B (Option String × Option UserProviderError) :=
  match rt.marshalIdentifyUserRequest { Filters := filters } with
  | .error err => Call.early (none, some (p.createSystemError "Failed to marshal request" err))
  | .ok jsonBody =>
    let x := p.httpClient.Post rt.net (p.baseURL ++ "/identify") "application/json" jsonBody
    match x.result with
    | .error err => Call.after x (none, some (p.createSystemError "Failed to send request" err))
    | .ok resp =>
      if resp.StatusCode = StatusOK then
        match rt.decodeIdentifyUserResponse resp.Body with
        | .error err =>
          Call.after x (none, some (p.createSystemError "Failed to decode response" err))
        | .ok result => Call.after x (some result.UserID, none)
      else Call.after x (none, some (p.decodeError rt resp.Body))

/-- Go `RestUserProvider.GetUser`. -/
def RestUserProvider.GetUser {B F U G : Type} (p : RestUserProvider) (rt : Runtime B F U G)
    (userID : String) : Call B (Option U × Option UserProviderError) :=
  let x := p.httpClient.Get rt.net (p.baseURL ++ "/users/" ++ userID)
  match x.result with
  | .error err => Call.after x (none, some (p.createSystemError "Failed to send request" err))
  | .ok resp =>
    if resp.StatusCode = StatusOK then
      match rt.decodeUser resp.Body with
      | .error err =>
        Call.after x (none, some (p.createSystemError "Failed to decode response" err))
      | .ok user => Call.after x (some user, none)
    else Call.after x (none, some (p.decodeError rt resp.Body))

/-- The query `GetUserGroups` puts on the parsed URL `u`: the pairs already in
`u`, then `limit` and `offset` set to their `%d` renderings. -/
def groupsQuery {B F U G : Type} (rt : Runtime B F U G) (u : neturl.URL) (limit offset : Int) :
    neturl.Values :=
  ((rt.parseQuery u.RawQuery).Set "limit" (toString limit)).Set "offset" (toString offset)

/-- Go `RestUserProvider.GetUserGroups`; Go `int` arguments are integers. -/
def RestUserProvider.GetUserGroups {B F U G : Type} (p : RestUserProvider)
    (rt : Runtime B F U G) (userID : String) (limit offset : Int) :
    Call B (Option G × Option UserProviderError) :=
  match rt.urlParse (p.baseURL ++ "/users/" ++ userID ++ "/groups") with
  | .error err => Call.early (none, some (p.createSystemError "Invalid URL" err))
  | .ok u =>
    let q := groupsQuery rt u limit offset
    let u := { u with RawQuery := q.Encode }
    let x := p.httpClient.Get rt.net u.String
    match x.result with
    | .error err => Call.after x (none, some (p.createSystemError "Failed to send request" err))
    | .ok resp =>
      if resp.StatusCode = StatusOK then
        match rt.decodeUserGroupListResponse resp.Body with
        | .error err =>
          Call.after x (none, some (p.createSystemError "Failed to decode response" err))
        | .ok result => Call.after x (some result, none)
      else Call.after x (none, some (p.decodeError rt resp.Body))

/-- Go `RestUserProvider.UpdateUser`. -/
def RestUserProvider.UpdateUser {B F U G : Type} (p : RestUserProvider) (rt : Runtime B F U G)
    (userID : String) (user : Option U) : Call B (Option U × Option UserProviderError) :=
  match rt.marshalUser user with
  | .error err => Call.early (none, some (p.createSystemError "Failed to marshal request" err))
  | .ok jsonBody =>
    match NewRequest rt.net MethodPut (p.baseURL ++ "/users/" ++ userID) (some jsonBody) with
    | .error err => Call.early (none, some (p.createSystemError "Failed to create request" err))
    | .ok req =>
      let req := { req with Header := req.Header.Set "Content-Type" "application/json" }
      let x := p.httpClient.Do rt.net req
      match x.result with
      | .error err => Call.after x (none, some (p.createSystemError "Failed to send request" err))
      | .ok resp =>
        if resp.StatusCode = StatusOK then
          match rt.decodeUser resp.Body with
          | .error err =>
            Call.after x (none, some (p.createSystemError "Failed to decode response" err))
          | .ok updatedUser => Call.after x (some updatedUser, none)
        else Call.after x (none, some (p.decodeError rt resp.Body))

/-- Go `RestUserProvider.CreateUser`. -/
def RestUserProvider.CreateUser {B F U G : Type} (p : RestUserProvider) (rt : Runtime B F U G)
    (user : Option U) : Call B (Option U × Option UserProviderError) :=
  match rt.marshalUser user with
  | .error err => Call.early (none, some (p.createSystemError "Failed to marshal request" err))
  | .ok jsonBody =>
    let x := p.httpClient.Post rt.net (p.baseURL ++ "/users") "application/json" jsonBody
    match x.result with
    | .error err => Call.after x (none, some (p.createSystemError "Failed to send request" err))
    | .ok resp =>
      if resp.StatusCode = StatusCreated ∨ resp.StatusCode = StatusOK then
        match rt.decodeUser resp.Body with
        | .error err =>
          Call.after x (none, some (p.createSystemError "Failed to decode response" err))
        | .ok createdUser => Call.after x (some createdUser, none)
      else Call.after x (none, some (p.decodeError rt resp.Body))

/-- Go `RestUserProvider.UpdateUserCredentials`; `credentials` is the raw JSON
payload. -/
def RestUserProvider.UpdateUserCredentials {B F U G : Type} (p : RestUserProvider)
    (rt : Runtime B F U G) (userID : String) (credentials : String) :
    Call B (Option UserProviderError) :=
  match NewRequest rt.net MethodPut (p.baseURL ++ "/users/" ++ userID ++ "/credentials")
      (some credentials) with
  | .error err => Call.early (some (p.createSystemError "Failed to create request" err))
  | .ok req =>
    let req := { req with Header := req.Header.Set "Content-Type" "application/json" }
    let x := p.httpClient.Do rt.net req
    match x.result with
    | .error err => Call.after x (some (p.createSystemError "Failed to send request" err))
    | .ok resp =>
      if resp.StatusCode = StatusOK then Call.after x none
      else Call.after x (some (p.decodeError rt resp.Body))

end userprovider

/-! ## The internal user service and the local delegate -/

namespace serviceerror

/-- Go `serviceerror.ServiceError`, the fields the delegate reads. -/
structure ServiceError where
  Code : String
  Error : String
  ErrorDescription : String
deriving DecidableEq, Repr

end serviceerror

namespace user

/-- Go `user.User`, the record of the internal user service. -/
structure User where
  ID : String
  «Type» : String
  OrganizationUnit : String
  Attributes : String
deriving DecidableEq, Repr

/-- Go `user.UserServiceInterface`, the two methods the delegate calls; an
answer is the pair of pointers the method returns. -/
structure UserServiceInterface (F : Type) where
  IdentifyUser : F → Option String × Option serviceerror.ServiceError
  GetUser : String → Option User × Option serviceerror.ServiceError

end user

namespace userprovider

/-- Go `defaultUserProvider`. -/
structure defaultUserProvider (F : Type) where
  userSvc : user.UserServiceInterface F

/-- Go `NewDefaultUserProvider`. -/
def NewDefaultUserProvider {F : Type} (userSvc : user.UserServiceInterface F) :
    defaultUserProvider F :=
  { userSvc := userSvc }

/-- Go `defaultUserProvider.IdentifyUser`; `ErrorUserNotFound` is the package
variable `user.ErrorUserNotFound`. -/
def defaultUserProvider.IdentifyUser {F : Type} (p : defaultUserProvider F)
    (ErrorUserNotFound : serviceerror.ServiceError) (filters : F) :
    Option String × Option UserProviderError :=
  match p.userSvc.IdentifyUser filters with
  | (_, some err) =>
    if err.Code = ErrorUserNotFound.Code then
      (none, some (NewUserProviderError ErrorCodeUserNotFound err.Error err.ErrorDescription))
    else
      (none, some (NewUserProviderError ErrorCodeSystemError err.Error err.ErrorDescription))
  | (userID, none) => (userID, none)

/-- Go `defaultUserProvider.GetUser`.  The outer `none` is the nil pointer
dereference of `userResult.ID` when the service returns neither a record
nor an error. -/
def defaultUserProvider.GetUser {F : Type} (p : defaultUserProvider F)
    (ErrorUserNotFound : serviceerror.ServiceError) (userID : String) :
    Option (Option User × Option UserProviderError) :=
  match p.userSvc.GetUser userID with
  | (_, some err) =>
    if err.Code = ErrorUserNotFound.Code then
      some (none, some (NewUserProviderError ErrorCodeUserNotFound err.Error err.ErrorDescription))
    else
      some (none, some (NewUserProviderError ErrorCodeSystemError err.Error err.ErrorDescription))
  | (none, none) => none
  | (some userResult, none) =>
    some (some { UserID := userResult.ID, UserType := userResult.«Type»,
                 OU := userResult.OrganizationUnit, Attributes := userResult.Attributes }, none)

end userprovider

/-! ## Package `authnprovider` -/

namespace authnprovider

open nethttp

/-- Go `AuthnProviderError`: the structured error of the authentication
provider. -/
structure AuthnProviderError where
  Code : String
  Message : String
  Description : String
deriving DecidableEq, Repr

/-- Modelled from the spec: the taxonomy constant `ErrorCodeSystemError` of this
package, whose declaration is not among the files at hand; the spec writes
the code `SystemError`. -/
def ErrorCodeSystemError : String := "SystemError"

/-- Modelled from the spec: the constructor `NewError(code, message,
description)`, declared outside the files at hand, builds the error value
from its three arguments in this order. -/
def NewError (code message description : String) : AuthnProviderError :=
  { Code := code, Message := message, Description := description }

/-- Go `RestAuthnProvider`. -/
structure RestAuthnProvider where
  baseURL : String
  httpClient : Client
deriving DecidableEq, Repr

/-- Go `AuthenticateRequest`; `M` is the type of the identifier and credential
mappings, `A` of `AuthnMetadata`. -/
structure AuthenticateRequest (M A : Type) where
  Identifiers : M
  Credentials : M
  Metadata : Option A

/-- Go `GetAttributesRequest`; `A` is the type of `GetAttributesMetadata`. -/
structure GetAttributesRequest (A : Type) where
  Token : String
  RequestedAttributes : List String
  Metadata : Option A

/-- What the REST authentication provider takes from outside the package: the
transport, `json.Marshal` of the two request records and
`json.NewDecoder(body).Decode(&v)` for `AuthnResult` (`R`),
`GetAttributesResult` (`T`) and `AuthnProviderError`. -/
structure Runtime (B M A A2 R T : Type) where
  net : Transport B
  marshalAuthenticateRequest : AuthenticateRequest M A → Except String String
  marshalGetAttributesRequest : GetAttributesRequest A2 → Except String String
  decodeAuthnResult : B → Except String R
  decodeGetAttributesResult : B → Except String T
  decodeAuthnProviderError : B → Except String AuthnProviderError

/-- Go `NewRestAuthnProvider(baseURL, timeout)`. -/
def NewRestAuthnProvider (baseURL : String) (timeout : Int) : RestAuthnProvider :=
  { baseURL := baseURL, httpClient := { Timeout := timeout } }

/-- Go `RestAuthnProvider.decodeError`. -/
def RestAuthnProvider.decodeError {B M A A2 R T : Type} (_p : RestAuthnProvider)
    (rt : Runtime B M A A2 R T) (body : B) : AuthnProviderError :=
  match rt.decodeAuthnProviderError body with
  | .error err => NewError ErrorCodeSystemError "Failed to decode error response" err
  | .ok authnError => authnError

/-- Go `RestAuthnProvider.Authenticate`. -/
def RestAuthnProvider.Authenticate {B M A A2 R T : Type} (p : RestAuthnProvider)
    (rt : Runtime B M A A2 R T) (identifiers credentials : M) (metadata : Option A) :
    Call B (Option R × Option AuthnProviderError) :=
  match rt.marshalAuthenticateRequest
      { Identifiers := identifiers, Credentials := credentials, Metadata := metadata } with
  | .error err =>
    Call.early (none, some (NewError ErrorCodeSystemError "Failed to marshal request" err))
  | .ok jsonBody =>
    let x := p.httpClient.Post rt.net (p.baseURL ++ "/authenticate") "application/json" jsonBody
    match x.result with
    | .error err =>
      Call.after x (none, some (NewError ErrorCodeSystemError "Failed to send request" err))
    | .ok resp =>
      if resp.StatusCode = StatusOK then
        match rt.decodeAuthnResult resp.Body with
        | .error err =>
          Call.after x (none, some (NewError ErrorCodeSystemError "Failed to decode response" err))
        | .ok result => Call.after x (some result, none)
      else Call.after x (none, some (p.decodeError rt resp.Body))

/-- Go `RestAuthnProvider.GetAttributes`. -/
def RestAuthnProvider.GetAttributes {B M A A2 R T : Type} (p : RestAuthnProvider)
    (rt : Runtime B M A A2 R T) (token : String) (requestedAttributes : List String)
    (metadata : Option A2) : Call B (Option T × Option AuthnProviderError) :=
  match rt.marshalGetAttributesRequest
      { Token := token, RequestedAttributes := requestedAttributes, Metadata := metadata } with
  | .error err =>
    Call.early (none, some (NewError ErrorCodeSystemError "Failed to marshal request" err))
  | .ok jsonBody =>
    let x := p.httpClient.Post rt.net (p.baseURL ++ "/attributes") "application/json" jsonBody
    match x.result with
    | .error err =>
      Call.after x (none, some (NewError ErrorCodeSystemError "Failed to send request" err))
    | .ok resp =>
      if resp.StatusCode = StatusOK then
        match rt.decodeGetAttributesResult resp.Body with
        | .error err =>
          Call.after x (none, some (NewError ErrorCodeSystemError "Failed to decode response" err))
        | .ok result => Call.after x (some result, none)
      else Call.after x (none, some (p.decodeError rt resp.Body))

end authnprovider

/-! ## The wire format of the error body -/

namespace userprovider

/-- Modelled from the spec: the wire format of a provider error is the JSON
object `{code, message, description}`; the declaration of
`UserProviderError` with its field tags is not among the files at hand.
This is `json.NewDecoder(body).Decode(&userProviderError)` on a zero
value. -/
def decodeUserProviderErrorJSON (b : encodingjson.Body) : Except String UserProviderError :=
  match encodingjson.decodeStrings "userprovider.UserProviderError"
      ["code", "message", "description"] b with
  | .error err => .error err
  | .ok st =>
    .ok { Code := st.get "code", Message := st.get "message",
          Description := st.get "description" }

/-- Go `json.NewDecoder(body).Decode(&result)` for `IdentifyUserResponse`, whose
one field has the key `userID`. -/
def decodeIdentifyUserResponseJSON (b : encodingjson.Body) :
    Except String IdentifyUserResponse :=
  match encodingjson.decodeStrings "userprovider.IdentifyUserResponse" ["userID"] b with
  | .error err => .error err
  | .ok st => .ok { UserID := st.get "userID" }

end userprovider

namespace authnprovider

/-- Modelled from the spec: the wire format of a provider error is the JSON
object `{code, message, description}`; the declaration of
`AuthnProviderError` with its field tags is not among the files at hand. -/
def decodeAuthnProviderErrorJSON (b : encodingjson.Body) : Except String AuthnProviderError :=
  match encodingjson.decodeStrings "authnprovider.AuthnProviderError"
      ["code", "message", "description"] b with
  | .error err => .error err
  | .ok st =>
    .ok { Code := st.get "code", Message := st.get "message",
          Description := st.get "description" }

end authnprovider

/-! ## The contract, in the words of the specification -/

namespace contract

open nethttp

/-- Exactly one of the result and the error is non-nil. -/
def exactlyOne {α ε : Type} (r : Option α × Option ε) : Prop :=
  (r.1.isSome = true ∧ r.2.isSome = false) ∨ (r.1.isSome = false ∧ r.2.isSome = true)

/-- What the specification prescribes for the answer `r` of the HTTP client:
a transport failure is a system error; a success status decodes the body as
the result; any other status decodes the body as a provider error; a body
that does not decode is a system error carrying the decoder's text. -/
def outcome {B α E : Type} (systemError : String → String → E) (success : Int → Bool)
    (decode : B → Except String α) (decodeError : B → Except String E) :
    Except String (Response B) → Option α × Option E
  | .error cause => (none, some (systemError "Failed to send request" cause))
  | .ok resp =>
    if success resp.StatusCode then
      match decode resp.Body with
      | .error cause => (none, some (systemError "Failed to decode response" cause))
      | .ok v => (some v, none)
    else
      match decodeError resp.Body with
      | .error cause => (none, some (systemError "Failed to decode error response" cause))
      | .ok e => (none, some e)

/-- The same for an operation without a result body
(`UpdateUserCredentials`). -/
def outcomeNoResult {B E : Type} (systemError : String → String → E) (success : Int → Bool)
    (decodeError : B → Except String E) : Except String (Response B) → Option E
  | .error cause => some (systemError "Failed to send request" cause)
  | .ok resp =>
    if success resp.StatusCode then none
    else
      match decodeError resp.Body with
      | .error cause => some (systemError "Failed to decode error response" cause)
      | .ok e => some e

end contract

/-! ## A test peer

The environment of the examples: JSON bodies, an HTTP peer with a fixed
answer, and records without fields (`struct{}`) for the payload types whose
declarations are outside the files at hand. -/

namespace fixture

open nethttp encodingjson

/-- No ASCII control character occurs in the URL (`url.Parse` rejects them). -/
def controlFree (url : String) : Bool :=
  url.data.all (fun c => 32 ≤ c.toNat && c.toNat ≠ 127)

/-- The failure of `http.NewRequest` on a URL with a control character. -/
def requestError (_method url : String) : Option String :=
  if controlFree url then none else some "net/url: invalid control character in URL"

/-- A peer that answers every request with `status` and `body`. -/
def answering (status : Int) (body : Body) : Transport Body :=
  { requestError := requestError
    roundTrip := fun _ _ => .ok { StatusCode := status, Body := body } }

/-- A peer that cannot be reached: every round trip fails with `reason`. -/
def refusing (reason : String) : Transport Body :=
  { requestError := requestError
    roundTrip := fun _ _ => .error reason }

/-- The list up to the first `c`, and what follows it when `c` occurs. -/
def splitFirst (c : Char) : List Char → List Char × Option (List Char)
  | [] => ([], none)
  | x :: xs =>
    if x = c then ([], some xs)
    else ((x :: (splitFirst c xs).1), (splitFirst c xs).2)

/-- The pieces between the occurrences of `c`. -/
def splitAll (c : Char) : List Char → List (List Char)
  | [] => [[]]
  | x :: xs =>
    if x = c then [] :: splitAll c xs
    else
      match splitAll c xs with
      | [] => [[x]]
      | piece :: rest => (x :: piece) :: rest

/-- The part of `url.Parse` the examples need: the fragment is cut at the first
`#`, the query at the first `?`.  Percent escapes are not validated, and the
error text is the cause without the `parse "<url>":` lead of `url.Parse`. -/
def urlParse (s : String) : Except String neturl.URL :=
  if controlFree s then
    let beforeFragment := splitFirst '#' s.data
    let beforeQuery := splitFirst '?' beforeFragment.1
    .ok { Head := String.mk beforeQuery.1
          ForceQuery := beforeQuery.2 = some []
          RawQuery := String.mk (beforeQuery.2.getD [])
          Fragment := String.mk (beforeFragment.2.getD []) }
  else .error "net/url: invalid control character in URL"

/-- Go `Values.Add`. -/
def add (v : neturl.Values) (key value : String) : neturl.Values :=
  if v.any (fun kv => kv.1 = key) then
    v.map (fun kv => if kv.1 = key then (kv.1, kv.2 ++ [value]) else kv)
  else v ++ [(key, [value])]

/-- The part of `url.ParseQuery` the examples need: pairs are separated by `&`,
key and value by the first `=`; keys and values are taken literally (no
escape sequence is decoded). -/
def parseQuery (raw : String) : neturl.Values :=
  ((splitAll '&' raw.data).filter (fun piece => piece ≠ [])).foldl
    (fun v piece =>
      add v (String.mk (splitFirst '=' piece).1) (String.mk ((splitFirst '=' piece).2.getD [])))
    []

/-- Go `json.Marshal` of a pointer to `struct{}`. -/
def marshalEmpty : Option Unit → String
  | none => "null"
  | some () => "\x7b\x7d"

/-- One character of a JSON string as `json.Marshal` writes it. -/
def quoteChar (c : Char) : List Char :=
  if c.toNat = 34 then [Char.ofNat 92, Char.ofNat 34]
  else if c.toNat = 92 then [Char.ofNat 92, Char.ofNat 92]
  else if c.toNat = 10 then [Char.ofNat 92, 'n']
  else if c.toNat = 13 then [Char.ofNat 92, 'r']
  else if c.toNat = 9 then [Char.ofNat 92, 't']
  else if c.toNat < 32 || c = '<' || c = '>' || c = '&' then
    [Char.ofNat 92, 'u', '0', '0', (neturl.hexDigit (c.toNat / 16)).toLower,
      (neturl.hexDigit (c.toNat % 16)).toLower]
  else if c.toNat = 8232 then [Char.ofNat 92, 'u', '2', '0', '2', '8']
  else if c.toNat = 8233 then [Char.ofNat 92, 'u', '2', '0', '2', '9']
  else [c]

/-- Go `json.Marshal` of a string. -/
def quote (s : String) : String :=
  "\x22" ++ String.mk (s.data.flatMap quoteChar) ++ "\x22"

/-- The runtime of the user provider against the peer `net`: filter mappings
are the empty mapping, user records and group pages are `struct{}`. -/
def userRuntime (net : Transport Body) : userprovider.Runtime Body Unit Unit Unit :=
  { net := net
    marshalIdentifyUserRequest := fun _ => .ok "\x7b\x22filters\x22:\x7b\x7d\x7d"
    marshalUser := fun u => .ok (marshalEmpty u)
    decodeIdentifyUserResponse := userprovider.decodeIdentifyUserResponseJSON
    decodeUser := decodeEmpty "struct \x7b\x7d"
    decodeUserGroupListResponse := decodeEmpty "struct \x7b\x7d"
    decodeUserProviderError := userprovider.decodeUserProviderErrorJSON
    urlParse := urlParse
    parseQuery := parseQuery }

/-- The runtime of the authentication provider against the peer `net`:
identifier and credential mappings are the empty mapping, metadata and
results are `struct{}`. -/
def authnRuntime (net : Transport Body) : authnprovider.Runtime Body Unit Unit Unit Unit Unit :=
  { net := net
    marshalAuthenticateRequest := fun r =>
      .ok ("\x7b\x22identifiers\x22:\x7b\x7d,\x22credentials\x22:\x7b\x7d,\x22metadata\x22:"
        ++ marshalEmpty r.Metadata ++ "\x7d")
    marshalGetAttributesRequest := fun r =>
      .ok ("\x7b\x22token\x22:" ++ quote r.Token ++ ",\x22requestedAttributes\x22:["
        ++ ",".intercalate (r.RequestedAttributes.map quote) ++ "],\x22metadata\x22:"
        ++ marshalEmpty r.Metadata ++ "\x7d")
    decodeAuthnResult := decodeEmpty "struct \x7b\x7d"
    decodeGetAttributesResult := decodeEmpty "struct \x7b\x7d"
    decodeAuthnProviderError := authnprovider.decodeAuthnProviderErrorJSON }

/-- The provider of the examples. -/
def provider : userprovider.RestUserProvider :=
  userprovider.NewRestUserProvider "http://peer" 1000000000

/-- The authentication provider of the examples. -/
def authn : authnprovider.RestAuthnProvider :=
  authnprovider.NewRestAuthnProvider "http://peer" 1000000000

/-- The body `{}`. -/
def emptyObject : Body :=
  .value (.object [])

/-- The body `{"code": code}`. -/
def codeOnly (code : String) : Body :=
  .value (.object [("code", .string code)])

end fixture

/-! ## Every operation follows the prescribed outcome -/

namespace contract

open nethttp

/-- A call record follows the specification: either it ended before the HTTP
client was invoked, with no result and a system error, or its return value
is the prescribed outcome of the client's answer. -/
def Conforms {B α E : Type} (systemError : String → String → E) (success : Int → Bool)
    (decode : B → Except String α) (decodeError : B → Except String E)
    (c : Call B (Option α × Option E)) : Prop :=
  (c.reply = none ∧ ∃ msg cause, c.ret = (none, some (systemError msg cause))) ∨
  (∃ r, c.reply = some r ∧ c.ret = outcome systemError success decode decodeError r)

/-- The same for an operation without a result body. -/
def ConformsNoResult {B E : Type} (systemError : String → String → E) (success : Int → Bool)
    (decodeError : B → Except String E) (c : Call B (Option E)) : Prop :=
  (c.reply = none ∧ ∃ msg cause, c.ret = some (systemError msg cause)) ∨
  (∃ r, c.reply = some r ∧ c.ret = outcomeNoResult systemError success decodeError r)

instance instDecidableExactlyOne {α ε : Type} (r : Option α × Option ε) :
    Decidable (exactlyOne r) := by
  unfold exactlyOne
  exact inferInstance

/-- The headers of the requests the user provider sends: none, or the JSON
content type. -/
def plainHeader (req : Request) : Prop :=
  req.Header = [] ∨ req.Header = Header.Set [] "Content-Type" "application/json"

/-- The request `Client.Get` builds for `url`. -/
def getRequest (url : String) : Request :=
  { Method := MethodGet, URL := url, Header := [], Body := none }

/-- The request with a JSON body that an operation builds for `method` and
`url`: the body and the content type header, nothing else. -/
def jsonRequest (method url body : String) : Request :=
  { Method := method, URL := url, Header := Header.Set [] "Content-Type" "application/json",
    Body := some body }

/-- The request `req` can be built and the transport answers the client `c`
with `r` for it: the text of a transport failure, or a response. -/
def Answers {B : Type} (net : Transport B) (c : Client) (req : Request)
    (r : Except String (Response B)) : Prop :=
  net.requestError req.Method req.URL = none ∧ net.roundTrip c req = r

/-- The success test of every operation but creation. -/
def isOK (status : Int) : Bool :=
  decide (status = StatusOK)

/-- The success test of creation. -/
def isCreatedOrOK (status : Int) : Bool :=
  decide (status = StatusCreated ∨ status = StatusOK)

end contract

namespace fixture

/-- The not-found error of the internal user service in the examples. -/
def ErrorUserNotFound : serviceerror.ServiceError :=
  { Code := "USR-1003", Error := "User not found",
    ErrorDescription := "The user with the specified id does not exist" }

/-- An internal user service that knows one user, `user123`. -/
def userService : user.UserServiceInterface Unit :=
  { IdentifyUser := fun _ => (some "user123", none)
    GetUser := fun userID =>
      if userID = "user123" then
        (some { ID := "user123", «Type» := "customer", OrganizationUnit := "ou1",
                Attributes := "\x7b\x7d" }, none)
      else (none, some ErrorUserNotFound) }

/-- The user provider runtime against a peer that refuses the connection. -/
def unreachableUser : userprovider.Runtime encodingjson.Body Unit Unit Unit :=
  userRuntime (refusing "connection refused")

/-- The authentication provider runtime against a peer that refuses the
connection. -/
def unreachableAuthn : authnprovider.Runtime encodingjson.Body Unit Unit Unit Unit Unit :=
  authnRuntime (refusing "connection refused")

/-- The user provider runtime against a peer that answers `status` with a body
that is not JSON. -/
def garbledUser (status : Int) : userprovider.Runtime encodingjson.Body Unit Unit Unit :=
  userRuntime (answering status (.malformed "unexpected EOF"))

/-- The authentication provider runtime against a peer that answers `status`
with a body that is not JSON. -/
def garbledAuthn (status : Int) :
    authnprovider.Runtime encodingjson.Body Unit Unit Unit Unit Unit :=
  authnRuntime (answering status (.malformed "unexpected EOF"))

/-- The user provider runtime against a peer that answers 404 with
`{"code":"USER-1001"}`. -/
def notFoundUser : userprovider.Runtime encodingjson.Body Unit Unit Unit :=
  userRuntime (answering 404 (codeOnly "USER-1001"))

/-- The body `IdentifyUser` sends for the empty filter mapping. -/
def identifyBody : String := "\x7b\x22filters\x22:\x7b\x7d\x7d"

/-- The body `Authenticate` sends for empty mappings and no metadata. -/
def authenticateBody : String :=
  "\x7b\x22identifiers\x22:\x7b\x7d,\x22credentials\x22:\x7b\x7d,\x22metadata\x22:null\x7d"

/-- The body `GetAttributes` sends for the token `token`, no attribute names
and no metadata. -/
def attributesBody : String :=
  "\x7b\x22token\x22:\x22token\x22,\x22requestedAttributes\x22:[],\x22metadata\x22:null\x7d"

/-- What `url.Parse` makes of the groups URL of `user123`. -/
def groupsURL : neturl.URL :=
  { Head := "http://peer/users/user123/groups", ForceQuery := false, RawQuery := "",
    Fragment := "" }

/-- An internal user service that fails every call with `err`. -/
def failingService (err : serviceerror.ServiceError) : user.UserServiceInterface Unit :=
  { IdentifyUser := fun _ => (none, some err)
    GetUser := fun _ => (none, some err) }

end fixture

/-! ## Initialization of the authentication provider -/

namespace time

/-- Go `time.Second`, a duration in nanoseconds. -/
def Second : Int := 1000000000

end time

namespace authnprovider

/-- Go `InitializeRestAuthnProvider`.  The call in `init.go` hands
`NewRestAuthnProvider` the credential as well; the constructor in
`rest_authn_provider.go` has the parameters `baseURL` and `timeout` only, so
the credential has nowhere to go and the provider is built from the other
two. -/
def InitializeRestAuthnProvider (baseURL _apiKey : String) (timeout : Int) :
    RestAuthnProvider :=
  let timeout := if timeout = 0 then 10 * time.Second else timeout
  NewRestAuthnProvider baseURL timeout

end authnprovider

/-! ## Package `mgt`: translation of response bodies -/

namespace mgt

open encodingjson

/-- Go `Translation`, the field `recursiveTranslate` reads. -/
structure Translation where
  Value : String
deriving DecidableEq, Repr

/-- Go `I18nServiceInterface`, the method `recursiveTranslate` calls with
`(language, namespace, key)`: it returns an error or a translation. -/
structure I18nServiceInterface (E : Type) where
  ResolveTranslationsForKey : String → String → String → Except E Translation

/-- The text left after the literal `lit` at the start of `s`, `none` when `s`
does not start with it. -/
def dropLiteral : List Char → List Char → Option (List Char)
  | [], s => some s
  | _ :: _, [] => none
  | p :: ps, c :: cs => if p = c then dropLiteral ps cs else none

/-- The opening `{{t(` of the pattern. -/
def opening : List Char := "\x7b\x7bt(".data

/-- The closing `)}}` of the pattern. -/
def closing : List Char := ")\x7d\x7d".data

/-- The longest run `k` of characters other than `:` at the start of `t` that
is followed by the closing `)}}`: what a greedy `[^:]*` before `\)\}\}`
matches. -/
def longestKey : List Char → Option (List Char)
  | [] => none
  | c :: cs =>
    match (if c = ':' then none else longestKey cs) with
    | some k => some (c :: k)
    | none => if (dropLiteral closing (c :: cs)).isSome then some [] else none

/-- A match of `\{\{t\(([^:]+):([^:]+)\)\}\}` that starts at the start of `s`:
the two groups.  The first group is the whole run of characters other than
`:` after the opening and must be followed by `:`; the second is the
longest non-empty run without `:` that the closing follows. -/
def matchAt (s : List Char) : Option (List Char × List Char) :=
  match dropLiteral opening s with
  | none => none
  | some rest =>
    match rest.takeWhile (fun c => c ≠ ':'), rest.dropWhile (fun c => c ≠ ':') with
    | [], _ => none
    | _ :: _, [] => none
    | _ :: _, [_] => none
    | n :: ns, _ :: c :: cs =>
      if c = ':' then none
      else
        match longestKey cs with
        | none => none
        | some k => some (n :: ns, c :: k)

/-- The leftmost match of the pattern in `s`. -/
def findSubmatch : List Char → Option (List Char × List Char)
  | [] => none
  | c :: cs =>
    match matchAt (c :: cs) with
    | some m => some m
    | none => findSubmatch cs

/-- Go `translationRegex.FindStringSubmatch` for
`\{\{t\(([^:]+):([^:]+)\)\}\}`: the leftmost match with its two groups, or
the empty slice. -/
def translationRegex.FindStringSubmatch (s : String) : List String :=
  match findSubmatch s.data with
  | none => []
  | some (ns, key) =>
    [String.mk (opening ++ ns ++ [':'] ++ key ++ closing), String.mk ns, String.mk key]

mutual

/-- Go `recursiveTranslate` on a decoded JSON value. -/
def recursiveTranslate {E : Type} (v : Value) (i18nService : I18nServiceInterface E)
    (language : String) : Value :=
  match v with
  | .string val =>
    match translationRegex.FindStringSubmatch val with
    | [_, ns, key] =>
      match i18nService.ResolveTranslationsForKey language ns key with
      | .error _ => .string val
      | .ok translation => .string translation.Value
    | _ => .string val
  | .object val => .object (translateMap val i18nService language)
  | .array val => .array (translateSlice val i18nService language)
  | .null => .null
  | .bool b => .bool b
  | .number lit => .number lit

/-- The loop of `recursiveTranslate` over the entries of a map. -/
def translateMap {E : Type} (val : List (String × Value)) (i18nService : I18nServiceInterface E)
    (language : String) : List (String × Value) :=
  match val with
  | [] => []
  | (k, v) :: rest =>
    (k, recursiveTranslate v i18nService language) :: translateMap rest i18nService language

/-- The loop of `recursiveTranslate` over the elements of a slice. -/
def translateSlice {E : Type} (val : List Value) (i18nService : I18nServiceInterface E)
    (language : String) : List Value :=
  match val with
  | [] => []
  | v :: rest =>
    recursiveTranslate v i18nService language :: translateSlice rest i18nService language

end

/-- The string `s` holds a placeholder `{{t(ns:key)}}`: the opening, a
non-empty namespace without `:`, a `:`, a non-empty key without `:` and
the closing, somewhere in `s`. -/
def HasPlaceholder (s ns key : String) : Prop :=
  ns ≠ "" ∧ key ≠ "" ∧ ':' ∉ ns.data ∧ ':' ∉ key.data ∧
  ∃ before after : List Char,
    s.data = before ++ (opening ++ ns.data ++ [':'] ++ key.data ++ closing) ++ after

/-- The string `s` is a string leaf of the value. -/
inductive StringLeaf : Value → String → Prop where
  | leaf (s : String) : StringLeaf (.string s) s
  | item {items : List Value} {x : Value} {s : String} :
      x ∈ items → StringLeaf x s → StringLeaf (.array items) s
  | member {members : List (String × Value)} {k : String} {x : Value} {s : String} :
      (k, x) ∈ members → StringLeaf x s → StringLeaf (.object members) s

/-- The string holds no placeholder at all. -/
def NoPlaceholder (s : String) : Prop :=
  ¬ ∃ ns key, HasPlaceholder s ns key

/-- The string holds some placeholder for which the service returns an error. -/
def SomePlaceholderFails {E : Type} (i18nService : I18nServiceInterface E) (language s : String) :
    Prop :=
  ∃ ns key e, HasPlaceholder s ns key ∧
    i18nService.ResolveTranslationsForKey language ns key = .error e

/-- The placeholder `recursiveTranslate` finds in the string, the leftmost
match of the pattern, is one for which the service returns an error. -/
def FoundPlaceholderFails {E : Type} (i18nService : I18nServiceInterface E)
    (language s : String) : Prop :=
  ∃ full ns key e, translationRegex.FindStringSubmatch s = [full, ns, key] ∧
    i18nService.ResolveTranslationsForKey language ns key = .error e

mutual

/-- The value with every string leaf blanked: its keys, its slice lengths and
order, and its leaves that are not strings. -/
def skeleton : Value → Value
  | .string _ => .string ""
  | .object members => .object (skeletonMap members)
  | .array items => .array (skeletonSlice items)
  | .null => .null
  | .bool b => .bool b
  | .number lit => .number lit

/-- The skeleton of the entries of a map. -/
def skeletonMap : List (String × Value) → List (String × Value)
  | [] => []
  | (k, v) :: rest => (k, skeleton v) :: skeletonMap rest

/-- The skeleton of the elements of a slice. -/
def skeletonSlice : List Value → List Value
  | [] => []
  | v :: rest => skeleton v :: skeletonSlice rest

end

end mgt

namespace fixture

/-- A translation service that knows the key `a:b` in every language and
fails for every other key. -/
def i18nService : mgt.I18nServiceInterface String :=
  { ResolveTranslationsForKey := fun _ ns key =>
      if ns = "a" ∧ key = "b" then .ok { Value := "Hello" }
      else .error "translation not found" }

/-- A translation service without translations. -/
def emptyI18nService : mgt.I18nServiceInterface String :=
  { ResolveTranslationsForKey := fun _ _ _ => .error "translation not found" }

end fixture

/-! ## Lemmas -/

namespace contract

open nethttp

section

variable {B α E : Type} {systemError : String → String → E} {success : Int → Bool}
  {decode : B → Except String α} {decodeError : B → Except String E}

theorem outcome_exactlyOne (r : Except String (Response B)) :
    exactlyOne (outcome systemError success decode decodeError r) := by
  rcases r with cause | resp
  · exact Or.inr ⟨rfl, rfl⟩
  · unfold outcome
    cases hs : success resp.StatusCode
    · cases hd : decodeError resp.Body <;> simp [exactlyOne, hs, hd]
    · cases hd : decode resp.Body <;> simp [exactlyOne, hs, hd]

theorem Conforms.exactlyOne_ret {c : Call B (Option α × Option E)}
    (h : Conforms systemError success decode decodeError c) : exactlyOne c.ret := by
  rcases h with ⟨_, msg, cause, hret⟩ | ⟨r, _, hret⟩
  · rw [hret]
    exact Or.inr ⟨rfl, rfl⟩
  · rw [hret]
    exact outcome_exactlyOne r

theorem Conforms.ret_of_reply {c : Call B (Option α × Option E)}
    (h : Conforms systemError success decode decodeError c)
    {r : Except String (Response B)} (hr : c.reply = some r) :
    c.ret = outcome systemError success decode decodeError r := by
  rcases h with ⟨hnone, _⟩ | ⟨r', hr', hret⟩
  · rw [hnone] at hr
    cases hr
  · rw [hr'] at hr
    cases hr
    exact hret

theorem ConformsNoResult.error_of_reply {c : Call B (Option E)}
    (h : ConformsNoResult systemError success decodeError c)
    {r : Except String (Response B)} (hr : c.reply = some r) :
    c.ret = outcomeNoResult systemError success decodeError r := by
  rcases h with ⟨hnone, _⟩ | ⟨r', hr', hret⟩
  · rw [hnone] at hr
    cases hr
  · rw [hr'] at hr
    cases hr
    exact hret

end

end contract

namespace userprovider

open nethttp contract

section

variable {B F U G : Type}

theorem IdentifyUser_conforms (p : RestUserProvider) (rt : Runtime B F U G) (filters : F) :
    Conforms p.createSystemError isOK
      (fun b => (rt.decodeIdentifyUserResponse b).map (fun r => r.UserID))
      rt.decodeUserProviderError (p.IdentifyUser rt filters) := by
  unfold RestUserProvider.IdentifyUser
  cases hm : rt.marshalIdentifyUserRequest { Filters := filters } with
  | error err => exact Or.inl ⟨rfl, _, _, rfl⟩
  | ok jsonBody =>
    right
    simp only []
    generalize p.httpClient.Post rt.net _ _ _ = x
    rcases x with ⟨sent, result⟩
    rcases result with err | resp
    · exact ⟨_, rfl, rfl⟩
    · by_cases h : resp.StatusCode = StatusOK
      · cases hd : rt.decodeIdentifyUserResponse resp.Body <;>
          simp [h, hd, Call.after, outcome, isOK, Except.map]
      · cases hd : rt.decodeUserProviderError resp.Body <;>
          simp [h, hd, Call.after, outcome, isOK, RestUserProvider.decodeError]

theorem GetUser_conforms (p : RestUserProvider) (rt : Runtime B F U G) (userID : String) :
    Conforms p.createSystemError isOK rt.decodeUser rt.decodeUserProviderError
      (p.GetUser rt userID) := by
  right
  unfold RestUserProvider.GetUser
  simp only []
  generalize p.httpClient.Get rt.net _ = x
  rcases x with ⟨sent, result⟩
  rcases result with err | resp
  · exact ⟨_, rfl, rfl⟩
  · by_cases h : resp.StatusCode = StatusOK
    · cases hd : rt.decodeUser resp.Body <;>
        simp [h, hd, Call.after, outcome, isOK]
    · cases hd : rt.decodeUserProviderError resp.Body <;>
        simp [h, hd, Call.after, outcome, isOK, RestUserProvider.decodeError]

theorem GetUserGroups_conforms (p : RestUserProvider) (rt : Runtime B F U G) (userID : String)
    (limit offset : Int) :
    Conforms p.createSystemError isOK rt.decodeUserGroupListResponse
      rt.decodeUserProviderError (p.GetUserGroups rt userID limit offset) := by
  unfold RestUserProvider.GetUserGroups
  cases hu : rt.urlParse (p.baseURL ++ "/users/" ++ userID ++ "/groups") with
  | error err => exact Or.inl ⟨rfl, _, _, rfl⟩
  | ok u =>
    right
    simp only []
    generalize p.httpClient.Get rt.net _ = x
    rcases x with ⟨sent, result⟩
    rcases result with err | resp
    · exact ⟨_, rfl, rfl⟩
    · by_cases h : resp.StatusCode = StatusOK
      · cases hd : rt.decodeUserGroupListResponse resp.Body <;>
          simp [h, hd, Call.after, outcome, isOK]
      · cases hd : rt.decodeUserProviderError resp.Body <;>
          simp [h, hd, Call.after, outcome, isOK, RestUserProvider.decodeError]

theorem UpdateUser_conforms (p : RestUserProvider) (rt : Runtime B F U G) (userID : String)
    (user : Option U) :
    Conforms p.createSystemError isOK rt.decodeUser rt.decodeUserProviderError
      (p.UpdateUser rt userID user) := by
  unfold RestUserProvider.UpdateUser
  cases hm : rt.marshalUser user with
  | error err => exact Or.inl ⟨rfl, _, _, rfl⟩
  | ok jsonBody =>
    simp only []
    cases hq : NewRequest rt.net MethodPut (p.baseURL ++ "/users/" ++ userID) (some jsonBody) with
    | error err => exact Or.inl ⟨rfl, _, _, rfl⟩
    | ok req =>
      right
      simp only []
      generalize p.httpClient.Do rt.net _ = x
      rcases x with ⟨sent, result⟩
      rcases result with err | resp
      · exact ⟨_, rfl, rfl⟩
      · by_cases h : resp.StatusCode = StatusOK
        · cases hd : rt.decodeUser resp.Body <;>
            simp [h, hd, Call.after, outcome, isOK]
        · cases hd : rt.decodeUserProviderError resp.Body <;>
            simp [h, hd, Call.after, outcome, isOK, RestUserProvider.decodeError]

theorem CreateUser_conforms (p : RestUserProvider) (rt : Runtime B F U G) (user : Option U) :
    Conforms p.createSystemError isCreatedOrOK rt.decodeUser rt.decodeUserProviderError
      (p.CreateUser rt user) := by
  unfold RestUserProvider.CreateUser
  cases hm : rt.marshalUser user with
  | error err => exact Or.inl ⟨rfl, _, _, rfl⟩
  | ok jsonBody =>
    right
    simp only []
    generalize p.httpClient.Post rt.net _ _ _ = x
    rcases x with ⟨sent, result⟩
    rcases result with err | resp
    · exact ⟨_, rfl, rfl⟩
    · by_cases h : resp.StatusCode = StatusCreated ∨ resp.StatusCode = StatusOK
      · cases hd : rt.decodeUser resp.Body <;>
          simp [h, hd, Call.after, outcome, isCreatedOrOK]
      · cases hd : rt.decodeUserProviderError resp.Body <;>
          simp [h, hd, Call.after, outcome, isCreatedOrOK, RestUserProvider.decodeError]

theorem UpdateUserCredentials_conforms (p : RestUserProvider) (rt : Runtime B F U G)
    (userID credentials : String) :
    ConformsNoResult p.createSystemError isOK rt.decodeUserProviderError
      (p.UpdateUserCredentials rt userID credentials) := by
  unfold RestUserProvider.UpdateUserCredentials
  cases hq : NewRequest rt.net MethodPut (p.baseURL ++ "/users/" ++ userID ++ "/credentials")
      (some credentials) with
  | error err => exact Or.inl ⟨rfl, _, _, rfl⟩
  | ok req =>
    right
    simp only []
    generalize p.httpClient.Do rt.net _ = x
    rcases x with ⟨sent, result⟩
    rcases result with err | resp
    · exact ⟨_, rfl, rfl⟩
    · by_cases h : resp.StatusCode = StatusOK
      · simp [h, Call.after, outcomeNoResult, isOK]
      · cases hd : rt.decodeUserProviderError resp.Body <;>
          simp [h, hd, Call.after, outcomeNoResult, isOK, RestUserProvider.decodeError]

/-- When the request can be built, `Client.Get` returns what the transport
returns for it. -/
theorem get_result {B : Type} (c : Client) (net : Transport B) (url : String)
    (hq : net.requestError MethodGet url = none) :
    (c.Get net url).result = net.roundTrip c (getRequest url) := by
  simp [Client.Get, NewRequest, hq, Client.Do, getRequest]

/-- When the request can be built, `Client.Post` returns what the transport
returns for it. -/
theorem post_result {B : Type} (c : Client) (net : Transport B) (url body : String)
    (hq : net.requestError MethodPost url = none) :
    (c.Post net url "application/json" body).result =
      net.roundTrip c (jsonRequest MethodPost url body) := by
  simp [Client.Post, NewRequest, hq, Client.Do, jsonRequest]

theorem IdentifyUser_reaches (p : RestUserProvider) (rt : Runtime B F U G) (filters : F)
    (jsonBody : String)
    (hm : rt.marshalIdentifyUserRequest { Filters := filters } = .ok jsonBody)
    (hq : rt.net.requestError MethodPost (p.baseURL ++ "/identify") = none) :
    (p.IdentifyUser rt filters).reply = some (rt.net.roundTrip p.httpClient
      (jsonRequest MethodPost (p.baseURL ++ "/identify") jsonBody)) := by
  rw [← post_result p.httpClient rt.net _ jsonBody hq]
  unfold RestUserProvider.IdentifyUser
  simp only [hm]
  generalize p.httpClient.Post rt.net _ _ _ = x
  rcases x with ⟨sent, result⟩
  rcases result with err | resp
  · rfl
  · by_cases h : resp.StatusCode = StatusOK
    · cases hd : rt.decodeIdentifyUserResponse resp.Body <;> simp [h, hd, Call.after]
    · simp [h, Call.after]

theorem GetUser_reaches (p : RestUserProvider) (rt : Runtime B F U G) (userID : String)
    (hq : rt.net.requestError MethodGet (p.baseURL ++ "/users/" ++ userID) = none) :
    (p.GetUser rt userID).reply = some (rt.net.roundTrip p.httpClient
      (getRequest (p.baseURL ++ "/users/" ++ userID))) := by
  rw [← get_result p.httpClient rt.net _ hq]
  unfold RestUserProvider.GetUser
  simp only []
  generalize p.httpClient.Get rt.net _ = x
  rcases x with ⟨sent, result⟩
  rcases result with err | resp
  · rfl
  · by_cases h : resp.StatusCode = StatusOK
    · cases hd : rt.decodeUser resp.Body <;> simp [h, hd, Call.after]
    · simp [h, Call.after]

theorem GetUserGroups_reaches (p : RestUserProvider) (rt : Runtime B F U G) (userID : String)
    (limit offset : Int) (u : neturl.URL)
    (hu : rt.urlParse (p.baseURL ++ "/users/" ++ userID ++ "/groups") = .ok u)
    (hq : rt.net.requestError MethodGet
      ({ u with RawQuery := (groupsQuery rt u limit offset).Encode } : neturl.URL).String =
        none) :
    (p.GetUserGroups rt userID limit offset).reply = some (rt.net.roundTrip p.httpClient
      (getRequest
        ({ u with RawQuery := (groupsQuery rt u limit offset).Encode } : neturl.URL).String)) := by
  rw [← get_result p.httpClient rt.net _ hq]
  unfold RestUserProvider.GetUserGroups
  simp only [hu]
  generalize p.httpClient.Get rt.net _ = x
  rcases x with ⟨sent, result⟩
  rcases result with err | resp
  · rfl
  · by_cases h : resp.StatusCode = StatusOK
    · cases hd : rt.decodeUserGroupListResponse resp.Body <;> simp [h, hd, Call.after]
    · simp [h, Call.after]

theorem UpdateUser_reaches (p : RestUserProvider) (rt : Runtime B F U G) (userID : String)
    (user : Option U) (jsonBody : String)
    (hm : rt.marshalUser user = .ok jsonBody)
    (hq : rt.net.requestError MethodPut (p.baseURL ++ "/users/" ++ userID) = none) :
    (p.UpdateUser rt userID user).reply = some (rt.net.roundTrip p.httpClient
      (jsonRequest MethodPut (p.baseURL ++ "/users/" ++ userID) jsonBody)) := by
  unfold RestUserProvider.UpdateUser
  simp only [hm, NewRequest, hq, Client.Do, jsonRequest]
  generalize rt.net.roundTrip p.httpClient _ = result
  rcases result with err | resp
  · rfl
  · by_cases h : resp.StatusCode = StatusOK
    · cases hd : rt.decodeUser resp.Body <;> simp [h, hd, Call.after]
    · simp [h, Call.after]

theorem CreateUser_reaches (p : RestUserProvider) (rt : Runtime B F U G) (user : Option U)
    (jsonBody : String)
    (hm : rt.marshalUser user = .ok jsonBody)
    (hq : rt.net.requestError MethodPost (p.baseURL ++ "/users") = none) :
    (p.CreateUser rt user).reply = some (rt.net.roundTrip p.httpClient
      (jsonRequest MethodPost (p.baseURL ++ "/users") jsonBody)) := by
  rw [← post_result p.httpClient rt.net _ jsonBody hq]
  unfold RestUserProvider.CreateUser
  simp only [hm]
  generalize p.httpClient.Post rt.net _ _ _ = x
  rcases x with ⟨sent, result⟩
  rcases result with err | resp
  · rfl
  · by_cases h : resp.StatusCode = StatusCreated ∨ resp.StatusCode = StatusOK
    · cases hd : rt.decodeUser resp.Body <;> simp [h, hd, Call.after]
    · simp [h, Call.after]

theorem UpdateUserCredentials_reaches (p : RestUserProvider) (rt : Runtime B F U G)
    (userID credentials : String)
    (hq : rt.net.requestError MethodPut (p.baseURL ++ "/users/" ++ userID ++ "/credentials") =
      none) :
    (p.UpdateUserCredentials rt userID credentials).reply = some (rt.net.roundTrip p.httpClient
      (jsonRequest MethodPut (p.baseURL ++ "/users/" ++ userID ++ "/credentials")
        credentials)) := by
  unfold RestUserProvider.UpdateUserCredentials
  simp only [NewRequest, hq, Client.Do, jsonRequest]
  generalize rt.net.roundTrip p.httpClient _ = result
  rcases result with err | resp
  · rfl
  · by_cases h : resp.StatusCode = StatusOK
    · simp [h, Call.after]
    · simp [h, Call.after]

theorem IdentifyUser_request_fails (p : RestUserProvider) (rt : Runtime B F U G) (filters : F)
    (jsonBody cause : String)
    (hm : rt.marshalIdentifyUserRequest { Filters := filters } = .ok jsonBody)
    (hq : rt.net.requestError MethodPost (p.baseURL ++ "/identify") = some cause) :
    (p.IdentifyUser rt filters).reply = some (.error cause) := by
  unfold RestUserProvider.IdentifyUser
  simp [hm, Client.Post, NewRequest, hq, Call.after]

theorem GetUser_request_fails (p : RestUserProvider) (rt : Runtime B F U G) (userID : String)
    (cause : String)
    (hq : rt.net.requestError MethodGet (p.baseURL ++ "/users/" ++ userID) = some cause) :
    (p.GetUser rt userID).reply = some (.error cause) := by
  unfold RestUserProvider.GetUser
  simp [Client.Get, NewRequest, hq, Call.after]

theorem GetUserGroups_request_fails (p : RestUserProvider) (rt : Runtime B F U G)
    (userID : String) (limit offset : Int) (u : neturl.URL) (cause : String)
    (hu : rt.urlParse (p.baseURL ++ "/users/" ++ userID ++ "/groups") = .ok u)
    (hq : rt.net.requestError MethodGet
      ({ u with RawQuery := (groupsQuery rt u limit offset).Encode } : neturl.URL).String =
        some cause) :
    (p.GetUserGroups rt userID limit offset).reply = some (.error cause) := by
  unfold RestUserProvider.GetUserGroups
  simp [hu, Client.Get, NewRequest, hq, Call.after]

theorem CreateUser_request_fails (p : RestUserProvider) (rt : Runtime B F U G)
    (user : Option U) (jsonBody cause : String)
    (hm : rt.marshalUser user = .ok jsonBody)
    (hq : rt.net.requestError MethodPost (p.baseURL ++ "/users") = some cause) :
    (p.CreateUser rt user).reply = some (.error cause) := by
  unfold RestUserProvider.CreateUser
  simp [hm, Client.Post, NewRequest, hq, Call.after]

end

end userprovider

namespace authnprovider

open nethttp contract

section

variable {B M A A2 R T : Type}

theorem Authenticate_conforms (p : RestAuthnProvider) (rt : Runtime B M A A2 R T)
    (identifiers credentials : M) (metadata : Option A) :
    Conforms (NewError ErrorCodeSystemError) isOK rt.decodeAuthnResult
      rt.decodeAuthnProviderError (p.Authenticate rt identifiers credentials metadata) := by
  unfold RestAuthnProvider.Authenticate
  cases hm : rt.marshalAuthenticateRequest
      { Identifiers := identifiers, Credentials := credentials, Metadata := metadata } with
  | error err => exact Or.inl ⟨rfl, _, _, rfl⟩
  | ok jsonBody =>
    right
    simp only []
    generalize p.httpClient.Post rt.net _ _ _ = x
    rcases x with ⟨sent, result⟩
    rcases result with err | resp
    · exact ⟨_, rfl, rfl⟩
    · by_cases h : resp.StatusCode = StatusOK
      · cases hd : rt.decodeAuthnResult resp.Body <;>
          simp [h, hd, Call.after, outcome, isOK]
      · cases hd : rt.decodeAuthnProviderError resp.Body <;>
          simp [h, hd, Call.after, outcome, isOK, RestAuthnProvider.decodeError]

theorem GetAttributes_conforms (p : RestAuthnProvider) (rt : Runtime B M A A2 R T)
    (token : String) (requestedAttributes : List String) (metadata : Option A2) :
    Conforms (NewError ErrorCodeSystemError) isOK rt.decodeGetAttributesResult
      rt.decodeAuthnProviderError (p.GetAttributes rt token requestedAttributes metadata) := by
  unfold RestAuthnProvider.GetAttributes
  cases hm : rt.marshalGetAttributesRequest
      { Token := token, RequestedAttributes := requestedAttributes, Metadata := metadata } with
  | error err => exact Or.inl ⟨rfl, _, _, rfl⟩
  | ok jsonBody =>
    right
    simp only []
    generalize p.httpClient.Post rt.net _ _ _ = x
    rcases x with ⟨sent, result⟩
    rcases result with err | resp
    · exact ⟨_, rfl, rfl⟩
    · by_cases h : resp.StatusCode = StatusOK
      · cases hd : rt.decodeGetAttributesResult resp.Body <;>
          simp [h, hd, Call.after, outcome, isOK]
      · cases hd : rt.decodeAuthnProviderError resp.Body <;>
          simp [h, hd, Call.after, outcome, isOK, RestAuthnProvider.decodeError]

theorem Authenticate_reaches (p : RestAuthnProvider) (rt : Runtime B M A A2 R T)
    (identifiers credentials : M) (metadata : Option A) (jsonBody : String)
    (hm : rt.marshalAuthenticateRequest
      { Identifiers := identifiers, Credentials := credentials, Metadata := metadata } =
        .ok jsonBody)
    (hq : rt.net.requestError MethodPost (p.baseURL ++ "/authenticate") = none) :
    (p.Authenticate rt identifiers credentials metadata).reply =
      some (rt.net.roundTrip p.httpClient
        (jsonRequest MethodPost (p.baseURL ++ "/authenticate") jsonBody)) := by
  rw [← userprovider.post_result p.httpClient rt.net _ jsonBody hq]
  unfold RestAuthnProvider.Authenticate
  simp only [hm]
  generalize p.httpClient.Post rt.net _ _ _ = x
  rcases x with ⟨sent, result⟩
  rcases result with err | resp
  · rfl
  · by_cases h : resp.StatusCode = StatusOK
    · cases hd : rt.decodeAuthnResult resp.Body <;> simp [h, hd, Call.after]
    · simp [h, Call.after]

theorem GetAttributes_reaches (p : RestAuthnProvider) (rt : Runtime B M A A2 R T)
    (token : String) (requestedAttributes : List String) (metadata : Option A2)
    (jsonBody : String)
    (hm : rt.marshalGetAttributesRequest
      { Token := token, RequestedAttributes := requestedAttributes, Metadata := metadata } =
        .ok jsonBody)
    (hq : rt.net.requestError MethodPost (p.baseURL ++ "/attributes") = none) :
    (p.GetAttributes rt token requestedAttributes metadata).reply =
      some (rt.net.roundTrip p.httpClient
        (jsonRequest MethodPost (p.baseURL ++ "/attributes") jsonBody)) := by
  rw [← userprovider.post_result p.httpClient rt.net _ jsonBody hq]
  unfold RestAuthnProvider.GetAttributes
  simp only [hm]
  generalize p.httpClient.Post rt.net _ _ _ = x
  rcases x with ⟨sent, result⟩
  rcases result with err | resp
  · rfl
  · by_cases h : resp.StatusCode = StatusOK
    · cases hd : rt.decodeGetAttributesResult resp.Body <;> simp [h, hd, Call.after]
    · simp [h, Call.after]

theorem Authenticate_request_fails (p : RestAuthnProvider) (rt : Runtime B M A A2 R T)
    (identifiers credentials : M) (metadata : Option A) (jsonBody cause : String)
    (hm : rt.marshalAuthenticateRequest
      { Identifiers := identifiers, Credentials := credentials, Metadata := metadata } =
        .ok jsonBody)
    (hq : rt.net.requestError MethodPost (p.baseURL ++ "/authenticate") = some cause) :
    (p.Authenticate rt identifiers credentials metadata).reply = some (.error cause) := by
  unfold RestAuthnProvider.Authenticate
  simp [hm, Client.Post, NewRequest, hq, Call.after]

theorem GetAttributes_request_fails (p : RestAuthnProvider) (rt : Runtime B M A A2 R T)
    (token : String) (requestedAttributes : List String) (metadata : Option A2)
    (jsonBody cause : String)
    (hm : rt.marshalGetAttributesRequest
      { Token := token, RequestedAttributes := requestedAttributes, Metadata := metadata } =
        .ok jsonBody)
    (hq : rt.net.requestError MethodPost (p.baseURL ++ "/attributes") = some cause) :
    (p.GetAttributes rt token requestedAttributes metadata).reply = some (.error cause) := by
  unfold RestAuthnProvider.GetAttributes
  simp [hm, Client.Post, NewRequest, hq, Call.after]

end

end authnprovider

/-! ## The claims -/

namespace claims

open nethttp contract userprovider authnprovider

/-- C1: every operation of the remote user provider and of the remote
authentication provider that returns a (result, error) pair returns exactly
one of the two non-nil, whatever the transport, the status and the body
were and whether the body decoded or not; `IdentifyUser` and `GetUser` of
the local delegate do the same for every answer of the internal user
service that sets exactly one of its own result and error (and `GetUser`
then returns). -/
theorem C1_exactly_one_of_result_and_error {B F U G B2 M A A2 R T F2 : Type}
    (p : RestUserProvider) (rt : userprovider.Runtime B F U G)
    (pa : RestAuthnProvider) (rta : authnprovider.Runtime B2 M A A2 R T)
    (d : defaultUserProvider F2) (notFound : serviceerror.ServiceError)
    (filters : F) (userID : String) (limit offset : Int) (user : Option U)
    (identifiers credentials : M) (metadata : Option A)
    (token : String) (requestedAttributes : List String) (metadata2 : Option A2)
    (localFilters : F2) (localUserID : String)
    (hIdentify : exactlyOne (d.userSvc.IdentifyUser localFilters))
    (hGet : exactlyOne (d.userSvc.GetUser localUserID)) :
    exactlyOne (p.IdentifyUser rt filters).ret ∧
    exactlyOne (p.GetUser rt userID).ret ∧
    exactlyOne (p.GetUserGroups rt userID limit offset).ret ∧
    exactlyOne (p.UpdateUser rt userID user).ret ∧
    exactlyOne (p.CreateUser rt user).ret ∧
    exactlyOne (pa.Authenticate rta identifiers credentials metadata).ret ∧
    exactlyOne (pa.GetAttributes rta token requestedAttributes metadata2).ret ∧
    exactlyOne (d.IdentifyUser notFound localFilters) ∧
    ∃ r, d.GetUser notFound localUserID = some r ∧ exactlyOne r := by
  refine ⟨(IdentifyUser_conforms p rt filters).exactlyOne_ret,
    (GetUser_conforms p rt userID).exactlyOne_ret,
    (GetUserGroups_conforms p rt userID limit offset).exactlyOne_ret,
    (UpdateUser_conforms p rt userID user).exactlyOne_ret,
    (CreateUser_conforms p rt user).exactlyOne_ret,
    (Authenticate_conforms pa rta identifiers credentials metadata).exactlyOne_ret,
    (GetAttributes_conforms pa rta token requestedAttributes metadata2).exactlyOne_ret, ?_, ?_⟩
  · unfold defaultUserProvider.IdentifyUser
    rcases hs : d.userSvc.IdentifyUser localFilters with ⟨res, err⟩
    rw [hs] at hIdentify
    cases err with
    | some e =>
      by_cases hc : e.Code = notFound.Code <;> simp [hc, exactlyOne]
    | none => simpa [exactlyOne] using hIdentify
  · unfold defaultUserProvider.GetUser
    rcases hs : d.userSvc.GetUser localUserID with ⟨res, err⟩
    rw [hs] at hGet
    cases err with
    | some e =>
      by_cases hc : e.Code = notFound.Code <;> simp [hc, exactlyOne]
    | none =>
      cases res with
      | none => simp [exactlyOne] at hGet
      | some u => simp [exactlyOne]

/-- C1 at the test peer answering 404 with `{}` and the service that knows
`user123`. -/
theorem C1_exactly_one_of_result_and_error_witness :
    exactlyOne (fixture.userService.IdentifyUser ()) ∧
    exactlyOne (fixture.userService.GetUser "user123") ∧
    exactlyOne (fixture.provider.GetUser
      (fixture.userRuntime (fixture.answering 404 fixture.emptyObject)) "user123").ret ∧
    exactlyOne ((NewDefaultUserProvider fixture.userService).IdentifyUser
      fixture.ErrorUserNotFound ()) :=
  have h := C1_exactly_one_of_result_and_error fixture.provider
    (fixture.userRuntime (fixture.answering 404 fixture.emptyObject))
    fixture.authn (fixture.authnRuntime (fixture.answering 404 fixture.emptyObject))
    (NewDefaultUserProvider fixture.userService) fixture.ErrorUserNotFound
    () "user123" 10 5 none () () none "token" [] none () "user123"
    (by decide) (by decide)
  ⟨by decide, by decide, h.2.1, h.2.2.2.2.2.2.2.1⟩

/-- C2: a transport failure is a system error.  For each operation of the
remote user provider and of the remote authentication provider: when its
request body is marshalled (and, for `GetUserGroups`, its URL parsed) and
the HTTP client then reports a failure with text `cause` (the transport
fails the round trip of the request the operation builds or, where the
client builds the request itself, the request cannot be built), the
operation returns no result and the error `SystemError` /
"Failed to send request" / `cause`. -/
theorem C2_transport_failure_is_system_error {B F U G B2 M A A2 R T : Type}
    (p : RestUserProvider) (rt : userprovider.Runtime B F U G)
    (pa : RestAuthnProvider) (rta : authnprovider.Runtime B2 M A A2 R T)
    (filters : F) (userID credentialsJSON : String) (limit offset : Int) (user : Option U)
    (identifiers credentials : M) (metadata : Option A)
    (token : String) (requestedAttributes : List String) (metadata2 : Option A2)
    (identifyBody userBody authenticateBody attributesBody : String) (u : neturl.URL)
    (cause : String) :
    (rt.marshalIdentifyUserRequest { Filters := filters } = .ok identifyBody →
      (rt.net.requestError MethodPost (p.baseURL ++ "/identify") = some cause ∨
        Answers rt.net p.httpClient
        (jsonRequest MethodPost (p.baseURL ++ "/identify") identifyBody)
        (.error cause)) →
      (p.IdentifyUser rt filters).ret = (none, some
        { Code := userprovider.ErrorCodeSystemError, Message := "Failed to send request",
          Description := cause })) ∧
    ((rt.net.requestError MethodGet (p.baseURL ++ "/users/" ++ userID) = some cause ∨
        Answers rt.net p.httpClient
        (getRequest (p.baseURL ++ "/users/" ++ userID))
        (.error cause)) →
      (p.GetUser rt userID).ret = (none, some
        { Code := userprovider.ErrorCodeSystemError, Message := "Failed to send request",
          Description := cause })) ∧
    (rt.urlParse (p.baseURL ++ "/users/" ++ userID ++ "/groups") = .ok u →
      (rt.net.requestError MethodGet
          ({ u with RawQuery := (groupsQuery rt u limit offset).Encode } : neturl.URL).String = some cause ∨
        Answers rt.net p.httpClient
        (getRequest
        ({ u with RawQuery := (groupsQuery rt u limit offset).Encode } : neturl.URL).String)
        (.error cause)) →
      (p.GetUserGroups rt userID limit offset).ret = (none, some
        { Code := userprovider.ErrorCodeSystemError, Message := "Failed to send request",
          Description := cause })) ∧
    (rt.marshalUser user = .ok userBody →
      Answers rt.net p.httpClient
        (jsonRequest MethodPut (p.baseURL ++ "/users/" ++ userID) userBody)
        (.error cause) →
      (p.UpdateUser rt userID user).ret = (none, some
        { Code := userprovider.ErrorCodeSystemError, Message := "Failed to send request",
          Description := cause })) ∧
    (rt.marshalUser user = .ok userBody →
      (rt.net.requestError MethodPost (p.baseURL ++ "/users") = some cause ∨
        Answers rt.net p.httpClient
        (jsonRequest MethodPost (p.baseURL ++ "/users") userBody)
        (.error cause)) →
      (p.CreateUser rt user).ret = (none, some
        { Code := userprovider.ErrorCodeSystemError, Message := "Failed to send request",
          Description := cause })) ∧
    (Answers rt.net p.httpClient
        (jsonRequest MethodPut (p.baseURL ++ "/users/" ++ userID ++ "/credentials")
        credentialsJSON)
        (.error cause) →
      (p.UpdateUserCredentials rt userID credentialsJSON).ret = some
        { Code := userprovider.ErrorCodeSystemError, Message := "Failed to send request",
          Description := cause }) ∧
    (rta.marshalAuthenticateRequest
        { Identifiers := identifiers, Credentials := credentials, Metadata := metadata } =
          .ok authenticateBody →
      (rta.net.requestError MethodPost (pa.baseURL ++ "/authenticate") = some cause ∨
        Answers rta.net pa.httpClient
        (jsonRequest MethodPost (pa.baseURL ++ "/authenticate") authenticateBody)
        (.error cause)) →
      (pa.Authenticate rta identifiers credentials metadata).ret = (none, some
        { Code := authnprovider.ErrorCodeSystemError, Message := "Failed to send request",
          Description := cause })) ∧
    (rta.marshalGetAttributesRequest
        { Token := token, RequestedAttributes := requestedAttributes, Metadata := metadata2 } =
          .ok attributesBody →
      (rta.net.requestError MethodPost (pa.baseURL ++ "/attributes") = some cause ∨
        Answers rta.net pa.httpClient
        (jsonRequest MethodPost (pa.baseURL ++ "/attributes") attributesBody)
        (.error cause)) →
      (pa.GetAttributes rta token requestedAttributes metadata2).ret = (none, some
        { Code := authnprovider.ErrorCodeSystemError, Message := "Failed to send request",
          Description := cause })) := by
  refine ⟨?_, ?_, ?_, ?_, ?_, ?_, ?_, ?_⟩
  · intro hm h
    have hr : (p.IdentifyUser rt filters).reply = some (.error cause) := by
      rcases h with h | h
      · exact IdentifyUser_request_fails p rt filters identifyBody cause hm h
      · rw [IdentifyUser_reaches p rt filters identifyBody hm h.1, h.2]
    exact (IdentifyUser_conforms p rt filters).ret_of_reply hr
  · intro h
    have hr : (p.GetUser rt userID).reply = some (.error cause) := by
      rcases h with h | h
      · exact GetUser_request_fails p rt userID cause h
      · rw [GetUser_reaches p rt userID h.1, h.2]
    exact (GetUser_conforms p rt userID).ret_of_reply hr
  · intro hm h
    have hr : (p.GetUserGroups rt userID limit offset).reply = some (.error cause) := by
      rcases h with h | h
      · exact GetUserGroups_request_fails p rt userID limit offset u cause hm h
      · rw [GetUserGroups_reaches p rt userID limit offset u hm h.1, h.2]
    exact (GetUserGroups_conforms p rt userID limit offset).ret_of_reply hr
  · intro hm h
    have hr : (p.UpdateUser rt userID user).reply = some (.error cause) := by
      rw [UpdateUser_reaches p rt userID user userBody hm h.1, h.2]
    exact (UpdateUser_conforms p rt userID user).ret_of_reply hr
  · intro hm h
    have hr : (p.CreateUser rt user).reply = some (.error cause) := by
      rcases h with h | h
      · exact CreateUser_request_fails p rt user userBody cause hm h
      · rw [CreateUser_reaches p rt user userBody hm h.1, h.2]
    exact (CreateUser_conforms p rt user).ret_of_reply hr
  · intro h
    have hr : (p.UpdateUserCredentials rt userID credentialsJSON).reply = some (.error cause) := by
      rw [UpdateUserCredentials_reaches p rt userID credentialsJSON h.1, h.2]
    exact (UpdateUserCredentials_conforms p rt userID credentialsJSON).error_of_reply hr
  · intro hm h
    have hr : (pa.Authenticate rta identifiers credentials metadata).reply = some (.error cause) := by
      rcases h with h | h
      · exact Authenticate_request_fails pa rta identifiers credentials metadata authenticateBody cause hm h
      · rw [Authenticate_reaches pa rta identifiers credentials metadata authenticateBody hm h.1, h.2]
    exact (Authenticate_conforms pa rta identifiers credentials metadata).ret_of_reply hr
  · intro hm h
    have hr : (pa.GetAttributes rta token requestedAttributes metadata2).reply = some (.error cause) := by
      rcases h with h | h
      · exact GetAttributes_request_fails pa rta token requestedAttributes metadata2 attributesBody cause hm h
      · rw [GetAttributes_reaches pa rta token requestedAttributes metadata2 attributesBody hm h.1, h.2]
    exact (GetAttributes_conforms pa rta token requestedAttributes metadata2).ret_of_reply hr

/-- C2 at a peer that refuses the connection, for each of the eight
operations: the request is built, the round trip fails, and the operation
returns the system error with the text of the failure. -/
theorem C2_transport_failure_is_system_error_witness :
    Answers fixture.unreachableUser.net fixture.provider.httpClient
      (jsonRequest MethodPut "http://peer/users/user123/credentials" "\x7b\x7d")
      (.error "connection refused") ∧
    (fixture.provider.IdentifyUser fixture.unreachableUser ()).ret = (none, some
      { Code := "SystemError", Message := "Failed to send request",
        Description := "connection refused" }) ∧
    (fixture.provider.GetUser fixture.unreachableUser "user123").ret = (none, some
      { Code := "SystemError", Message := "Failed to send request",
        Description := "connection refused" }) ∧
    (fixture.provider.GetUserGroups fixture.unreachableUser "user123" 10 5).ret = (none, some
      { Code := "SystemError", Message := "Failed to send request",
        Description := "connection refused" }) ∧
    (fixture.provider.UpdateUser fixture.unreachableUser "user123" none).ret = (none, some
      { Code := "SystemError", Message := "Failed to send request",
        Description := "connection refused" }) ∧
    (fixture.provider.CreateUser fixture.unreachableUser none).ret = (none, some
      { Code := "SystemError", Message := "Failed to send request",
        Description := "connection refused" }) ∧
    (fixture.provider.UpdateUserCredentials fixture.unreachableUser "user123" "\x7b\x7d").ret =
      some
      { Code := "SystemError", Message := "Failed to send request",
        Description := "connection refused" } ∧
    (fixture.authn.Authenticate fixture.unreachableAuthn () () none).ret = (none, some
      { Code := "SystemError", Message := "Failed to send request",
        Description := "connection refused" }) ∧
    (fixture.authn.GetAttributes fixture.unreachableAuthn "token" [] none).ret = (none, some
      { Code := "SystemError", Message := "Failed to send request",
        Description := "connection refused" }) :=
  have h := C2_transport_failure_is_system_error fixture.provider fixture.unreachableUser
    fixture.authn fixture.unreachableAuthn () "user123" "\x7b\x7d" 10 5 none () () none
    "token" [] none fixture.identifyBody "null" fixture.authenticateBody fixture.attributesBody
    fixture.groupsURL "connection refused"
  ⟨⟨rfl, rfl⟩,
   h.1 rfl (Or.inr ⟨rfl, rfl⟩),
   h.2.1 (Or.inr ⟨rfl, rfl⟩),
   h.2.2.1 rfl (Or.inr ⟨rfl, rfl⟩),
   h.2.2.2.1 rfl ⟨rfl, rfl⟩,
   h.2.2.2.2.1 rfl (Or.inr ⟨rfl, rfl⟩),
   h.2.2.2.2.2.1 ⟨rfl, rfl⟩,
   h.2.2.2.2.2.2.1 rfl (Or.inr ⟨rfl, rfl⟩),
   h.2.2.2.2.2.2.2 rfl (Or.inr ⟨rfl, rfl⟩)⟩

/-- C3: a provider error of the peer passes through.  For each operation of
the remote user provider: when its request is built and the transport
answers it with a response whose status is not a success status of the
operation and whose body decodes as the provider error `e`, the operation
returns no result and `e` itself, code, message and description unchanged.
In particular, over JSON bodies, `IdentifyUser` answered with 404 and
`{"code":"USER-1001"}` returns a nil id and an error with code `USER-1001`,
and `UpdateUserCredentials` answered with 400 and
`{"code":"INVALID_REQUEST"}` returns an error with code `INVALID_REQUEST`. -/
theorem C3_provider_error_passes_through {B F U G : Type}
    (p : RestUserProvider) (rt : userprovider.Runtime B F U G)
    (rtj : userprovider.Runtime encodingjson.Body F U G)
    (filters : F) (userID credentialsJSON : String) (limit offset : Int) (user : Option U)
    (identifyBody userBody : String) (u : neturl.URL)
    (resp : Response B) (e : UserProviderError)
    (hdecode : rt.decodeUserProviderError resp.Body = .ok e)
    (hjson : rtj.decodeUserProviderError = decodeUserProviderErrorJSON) :
    (rt.marshalIdentifyUserRequest { Filters := filters } = .ok identifyBody →
      Answers rt.net p.httpClient
        (jsonRequest MethodPost (p.baseURL ++ "/identify") identifyBody)
        (.ok resp) →
      resp.StatusCode ≠ StatusOK →
      (p.IdentifyUser rt filters).ret = (none, some e)) ∧
    (Answers rt.net p.httpClient
        (getRequest (p.baseURL ++ "/users/" ++ userID))
        (.ok resp) →
      resp.StatusCode ≠ StatusOK →
      (p.GetUser rt userID).ret = (none, some e)) ∧
    (rt.urlParse (p.baseURL ++ "/users/" ++ userID ++ "/groups") = .ok u →
      Answers rt.net p.httpClient
        (getRequest
        ({ u with RawQuery := (groupsQuery rt u limit offset).Encode } : neturl.URL).String)
        (.ok resp) →
      resp.StatusCode ≠ StatusOK →
      (p.GetUserGroups rt userID limit offset).ret = (none, some e)) ∧
    (rt.marshalUser user = .ok userBody →
      Answers rt.net p.httpClient
        (jsonRequest MethodPut (p.baseURL ++ "/users/" ++ userID) userBody)
        (.ok resp) →
      resp.StatusCode ≠ StatusOK →
      (p.UpdateUser rt userID user).ret = (none, some e)) ∧
    (rt.marshalUser user = .ok userBody →
      Answers rt.net p.httpClient
        (jsonRequest MethodPost (p.baseURL ++ "/users") userBody)
        (.ok resp) →
      resp.StatusCode ≠ StatusOK →
      resp.StatusCode ≠ StatusCreated →
      (p.CreateUser rt user).ret = (none, some e)) ∧
    (Answers rt.net p.httpClient
        (jsonRequest MethodPut (p.baseURL ++ "/users/" ++ userID ++ "/credentials")
        credentialsJSON)
        (.ok resp) →
      resp.StatusCode ≠ StatusOK →
      (p.UpdateUserCredentials rt userID credentialsJSON).ret = some e) ∧
    (rtj.marshalIdentifyUserRequest { Filters := filters } = .ok identifyBody →
      Answers rtj.net p.httpClient
        (jsonRequest MethodPost (p.baseURL ++ "/identify") identifyBody)
        (.ok { StatusCode := 404,
               Body := .value (.object [("code", .string "USER-1001")]) }) →
      (p.IdentifyUser rtj filters).ret = (none, some
        { Code := "USER-1001", Message := "", Description := "" })) ∧
    (Answers rtj.net p.httpClient
        (jsonRequest MethodPut (p.baseURL ++ "/users/" ++ userID ++ "/credentials")
          credentialsJSON)
        (.ok { StatusCode := 400,
               Body := .value (.object [("code", .string "INVALID_REQUEST")]) }) →
      (p.UpdateUserCredentials rtj userID credentialsJSON).ret = some
        { Code := "INVALID_REQUEST", Message := "", Description := "" }) := by
  refine ⟨?_, ?_, ?_, ?_, ?_, ?_, ?_, ?_⟩
  · intro hm h hs
    have hr : (p.IdentifyUser rt filters).reply = some (.ok resp) := by
      rw [IdentifyUser_reaches p rt filters identifyBody hm h.1, h.2]
    rw [(IdentifyUser_conforms p rt filters).ret_of_reply hr]
    simp [outcome, isOK, hs, hdecode]
  · intro h hs
    have hr : (p.GetUser rt userID).reply = some (.ok resp) := by
      rw [GetUser_reaches p rt userID h.1, h.2]
    rw [(GetUser_conforms p rt userID).ret_of_reply hr]
    simp [outcome, isOK, hs, hdecode]
  · intro hm h hs
    have hr : (p.GetUserGroups rt userID limit offset).reply = some (.ok resp) := by
      rw [GetUserGroups_reaches p rt userID limit offset u hm h.1, h.2]
    rw [(GetUserGroups_conforms p rt userID limit offset).ret_of_reply hr]
    simp [outcome, isOK, hs, hdecode]
  · intro hm h hs
    have hr : (p.UpdateUser rt userID user).reply = some (.ok resp) := by
      rw [UpdateUser_reaches p rt userID user userBody hm h.1, h.2]
    rw [(UpdateUser_conforms p rt userID user).ret_of_reply hr]
    simp [outcome, isOK, hs, hdecode]
  · intro hm h hs hc
    have hr : (p.CreateUser rt user).reply = some (.ok resp) := by
      rw [CreateUser_reaches p rt user userBody hm h.1, h.2]
    rw [(CreateUser_conforms p rt user).ret_of_reply hr]
    simp [outcome, isCreatedOrOK, hc, hs, hdecode]
  · intro h hs
    have hr : (p.UpdateUserCredentials rt userID credentialsJSON).reply = some (.ok resp) := by
      rw [UpdateUserCredentials_reaches p rt userID credentialsJSON h.1, h.2]
    rw [(UpdateUserCredentials_conforms p rt userID credentialsJSON).error_of_reply hr]
    simp [outcomeNoResult, isOK, hs, hdecode]
  · intro hm h
    have hr := IdentifyUser_reaches p rtj filters identifyBody hm h.1
    rw [h.2] at hr
    rw [(IdentifyUser_conforms p rtj filters).ret_of_reply hr, hjson]
    rfl
  · intro h
    have hr := UpdateUserCredentials_reaches p rtj userID credentialsJSON h.1
    rw [h.2] at hr
    rw [(UpdateUserCredentials_conforms p rtj userID credentialsJSON).error_of_reply hr, hjson]
    rfl

/-- C3 at the test peer answering 404 with `{"code":"USER-1001"}`, for each of
the six operations, and at the peer answering 400 with
`{"code":"INVALID_REQUEST"}` for `UpdateUserCredentials`. -/
theorem C3_provider_error_passes_through_witness :
    userprovider.decodeUserProviderErrorJSON (fixture.codeOnly "USER-1001") =
      .ok { Code := "USER-1001", Message := "", Description := "" } ∧
    Answers fixture.notFoundUser.net fixture.provider.httpClient
      (jsonRequest MethodPut "http://peer/users/user123/credentials" "\x7b\x7d")
      (.ok { StatusCode := 404, Body := fixture.codeOnly "USER-1001" }) ∧
    (fixture.provider.IdentifyUser fixture.notFoundUser ()).ret =
      (none, some { Code := "USER-1001", Message := "", Description := "" }) ∧
    (fixture.provider.GetUser fixture.notFoundUser "user123").ret =
      (none, some { Code := "USER-1001", Message := "", Description := "" }) ∧
    (fixture.provider.GetUserGroups fixture.notFoundUser "user123" 10 5).ret =
      (none, some { Code := "USER-1001", Message := "", Description := "" }) ∧
    (fixture.provider.UpdateUser fixture.notFoundUser "user123" none).ret =
      (none, some { Code := "USER-1001", Message := "", Description := "" }) ∧
    (fixture.provider.CreateUser fixture.notFoundUser none).ret =
      (none, some { Code := "USER-1001", Message := "", Description := "" }) ∧
    (fixture.provider.UpdateUserCredentials fixture.notFoundUser "user123" "\x7b\x7d").ret =
      some { Code := "USER-1001", Message := "", Description := "" } ∧
    (fixture.provider.UpdateUserCredentials
      (fixture.userRuntime (fixture.answering 400 (fixture.codeOnly "INVALID_REQUEST")))
      "user123" "\x7b\x7d").ret =
      some { Code := "INVALID_REQUEST", Message := "", Description := "" } :=
  have h := C3_provider_error_passes_through fixture.provider fixture.notFoundUser
    (fixture.userRuntime (fixture.answering 400 (fixture.codeOnly "INVALID_REQUEST")))
    () "user123" "\x7b\x7d" 10 5 none fixture.identifyBody "null" fixture.groupsURL
    { StatusCode := 404, Body := fixture.codeOnly "USER-1001" }
    { Code := "USER-1001", Message := "", Description := "" } rfl rfl
  ⟨rfl, ⟨rfl, rfl⟩,
   h.1 rfl ⟨rfl, rfl⟩ (by decide),
   h.2.1 ⟨rfl, rfl⟩ (by decide),
   h.2.2.1 rfl ⟨rfl, rfl⟩ (by decide),
   h.2.2.2.1 rfl ⟨rfl, rfl⟩ (by decide),
   h.2.2.2.2.1 rfl ⟨rfl, rfl⟩ (by decide) (by decide),
   h.2.2.2.2.2.1 ⟨rfl, rfl⟩ (by decide),
   h.2.2.2.2.2.2.2 ⟨rfl, rfl⟩⟩

/-- Where the error of a conforming call comes from: it is a system error of
this layer, or the decoded body of a response without a success status. -/
theorem error_origin {B α E : Type} {systemError : String → String → E}
    {success : Int → Bool} {decode : B → Except String α} {decodeError : B → Except String E}
    {c : Call B (Option α × Option E)}
    (h : Conforms systemError success decode decodeError c) {e : E} (he : c.ret.2 = some e) :
    (∃ msg cause, e = systemError msg cause) ∨
    (∃ resp, c.reply = some (.ok resp) ∧ success resp.StatusCode = false ∧
      decodeError resp.Body = .ok e) := by
  rcases h with ⟨_, msg, cause, hret⟩ | ⟨r, hr, hret⟩
  · rw [hret] at he
    exact Or.inl ⟨msg, cause, (Option.some.inj he).symm⟩
  · rw [hret] at he
    rcases r with cause | resp
    · exact Or.inl ⟨_, cause, (Option.some.inj he).symm⟩
    · unfold outcome at he
      cases hs : success resp.StatusCode
      · cases hd : decodeError resp.Body with
        | error cause =>
          simp [hs, hd] at he
          exact Or.inl ⟨_, cause, he.symm⟩
        | ok e' =>
          simp [hs, hd] at he
          exact Or.inr ⟨resp, hr, hs, by rw [hd, he]⟩
      · cases hd : decode resp.Body with
        | error cause =>
          simp [hs, hd] at he
          exact Or.inl ⟨_, cause, he.symm⟩
        | ok v => simp [hs, hd] at he

/-- The same for an operation without a result body. -/
theorem error_origin_no_result {B E : Type} {systemError : String → String → E}
    {success : Int → Bool} {decodeError : B → Except String E} {c : Call B (Option E)}
    (h : ConformsNoResult systemError success decodeError c) {e : E} (he : c.ret = some e) :
    (∃ msg cause, e = systemError msg cause) ∨
    (∃ resp, c.reply = some (.ok resp) ∧ success resp.StatusCode = false ∧
      decodeError resp.Body = .ok e) := by
  rcases h with ⟨_, msg, cause, hret⟩ | ⟨r, hr, hret⟩
  · rw [hret] at he
    exact Or.inl ⟨msg, cause, (Option.some.inj he).symm⟩
  · rw [hret] at he
    rcases r with cause | resp
    · exact Or.inl ⟨_, cause, (Option.some.inj he).symm⟩
    · unfold outcomeNoResult at he
      cases hs : success resp.StatusCode
      · cases hd : decodeError resp.Body with
        | error cause =>
          simp [hs, hd] at he
          exact Or.inl ⟨_, cause, he.symm⟩
        | ok e' =>
          simp [hs, hd] at he
          exact Or.inr ⟨resp, hr, hs, by rw [hd, he]⟩
      · simp [hs] at he

/-- An error of the user provider has a non-empty code unless it is the decoded
body of a response whose status is not `success`. -/
theorem user_code_populated {B : Type} {success : Int → Bool}
    {decodeError : B → Except String UserProviderError}
    {reply : Option (Except String (Response B))} {p : RestUserProvider}
    {e : UserProviderError}
    (h : (∃ msg cause, e = p.createSystemError msg cause) ∨
      (∃ resp, reply = some (.ok resp) ∧ success resp.StatusCode = false ∧
        decodeError resp.Body = .ok e)) :
    e.Code ≠ "" ∨
    (∃ resp, reply = some (.ok resp) ∧ success resp.StatusCode = false ∧
      decodeError resp.Body = .ok e) := by
  rcases h with ⟨msg, cause, rfl⟩ | h
  · left
    show userprovider.ErrorCodeSystemError ≠ ""
    decide
  · exact Or.inr h

/-- An error of the authentication provider has a non-empty code unless it is
the decoded body of a response whose status is not `success`. -/
theorem authn_code_populated {B : Type} {success : Int → Bool}
    {decodeError : B → Except String AuthnProviderError}
    {reply : Option (Except String (Response B))} {e : AuthnProviderError}
    (h : (∃ msg cause, e = NewError authnprovider.ErrorCodeSystemError msg cause) ∨
      (∃ resp, reply = some (.ok resp) ∧ success resp.StatusCode = false ∧
        decodeError resp.Body = .ok e)) :
    e.Code ≠ "" ∨
    (∃ resp, reply = some (.ok resp) ∧ success resp.StatusCode = false ∧
      decodeError resp.Body = .ok e) := by
  rcases h with ⟨msg, cause, rfl⟩ | h
  · left
    show authnprovider.ErrorCodeSystemError ≠ ""
    decide
  · exact Or.inr h

/-- C4, as stated, fails: the peer answers `GetUser` with status 404 and the
body `{}`; the body decodes as a provider error without a code, and that
error is returned as it is, with the empty code. -/
theorem C4_code_populated_counterexample :
    ¬ (∀ e, (fixture.provider.GetUser
          (fixture.userRuntime (fixture.answering 404 fixture.emptyObject)) "user123").ret.2 =
        some e → e.Code ≠ "") :=
  fun h => h { Code := "", Message := "", Description := "" } rfl rfl

/-- C4, amended: an error returned by an operation of the remote user provider
or of the remote authentication provider has a non-empty code, unless the
response had a status that is not a success status of the operation and its
body decoded as that very error (then the code is whatever the body gave,
the empty string included). -/
theorem C4_code_populated_unless_decoded {B F U G B2 M A A2 R T : Type}
    (p : RestUserProvider) (rt : userprovider.Runtime B F U G)
    (pa : RestAuthnProvider) (rta : authnprovider.Runtime B2 M A A2 R T)
    (filters : F) (userID credentialsJSON : String) (limit offset : Int) (user : Option U)
    (identifiers credentials : M) (metadata : Option A)
    (token : String) (requestedAttributes : List String) (metadata2 : Option A2)
    (e : UserProviderError) (ea : AuthnProviderError) :
    ((p.IdentifyUser rt filters).ret.2 = some e → e.Code ≠ "" ∨
      ∃ resp, (p.IdentifyUser rt filters).reply = some (.ok resp) ∧
        isOK resp.StatusCode = false ∧ rt.decodeUserProviderError resp.Body = .ok e) ∧
    ((p.GetUser rt userID).ret.2 = some e → e.Code ≠ "" ∨
      ∃ resp, (p.GetUser rt userID).reply = some (.ok resp) ∧
        isOK resp.StatusCode = false ∧ rt.decodeUserProviderError resp.Body = .ok e) ∧
    ((p.GetUserGroups rt userID limit offset).ret.2 = some e → e.Code ≠ "" ∨
      ∃ resp, (p.GetUserGroups rt userID limit offset).reply = some (.ok resp) ∧
        isOK resp.StatusCode = false ∧ rt.decodeUserProviderError resp.Body = .ok e) ∧
    ((p.UpdateUser rt userID user).ret.2 = some e → e.Code ≠ "" ∨
      ∃ resp, (p.UpdateUser rt userID user).reply = some (.ok resp) ∧
        isOK resp.StatusCode = false ∧ rt.decodeUserProviderError resp.Body = .ok e) ∧
    ((p.CreateUser rt user).ret.2 = some e → e.Code ≠ "" ∨
      ∃ resp, (p.CreateUser rt user).reply = some (.ok resp) ∧
        isCreatedOrOK resp.StatusCode = false ∧ rt.decodeUserProviderError resp.Body = .ok e) ∧
    ((p.UpdateUserCredentials rt userID credentialsJSON).ret = some e → e.Code ≠ "" ∨
      ∃ resp, (p.UpdateUserCredentials rt userID credentialsJSON).reply = some (.ok resp) ∧
        isOK resp.StatusCode = false ∧ rt.decodeUserProviderError resp.Body = .ok e) ∧
    ((pa.Authenticate rta identifiers credentials metadata).ret.2 = some ea → ea.Code ≠ "" ∨
      ∃ resp, (pa.Authenticate rta identifiers credentials metadata).reply = some (.ok resp) ∧
        isOK resp.StatusCode = false ∧ rta.decodeAuthnProviderError resp.Body = .ok ea) ∧
    ((pa.GetAttributes rta token requestedAttributes metadata2).ret.2 = some ea →
      ea.Code ≠ "" ∨
      ∃ resp, (pa.GetAttributes rta token requestedAttributes metadata2).reply =
          some (.ok resp) ∧
        isOK resp.StatusCode = false ∧ rta.decodeAuthnProviderError resp.Body = .ok ea) :=
  ⟨fun h => user_code_populated (error_origin (IdentifyUser_conforms p rt filters) h),
   fun h => user_code_populated (error_origin (GetUser_conforms p rt userID) h),
   fun h => user_code_populated (error_origin (GetUserGroups_conforms p rt userID limit offset) h),
   fun h => user_code_populated (error_origin (UpdateUser_conforms p rt userID user) h),
   fun h => user_code_populated (error_origin (CreateUser_conforms p rt user) h),
   fun h => user_code_populated
     (error_origin_no_result (UpdateUserCredentials_conforms p rt userID credentialsJSON) h),
   fun h => authn_code_populated
     (error_origin (Authenticate_conforms pa rta identifiers credentials metadata) h),
   fun h => authn_code_populated
     (error_origin (GetAttributes_conforms pa rta token requestedAttributes metadata2) h)⟩

/-- C4, amended, at a peer that refuses the connection: the error of `GetUser`
is the system error, and the second alternative is excluded there. -/
theorem C4_code_populated_unless_decoded_witness :
    (fixture.provider.GetUser (fixture.userRuntime (fixture.refusing "connection refused"))
        "user123").ret.2 = some
      { Code := "SystemError", Message := "Failed to send request",
        Description := "connection refused" } ∧
    (("SystemError" : String) ≠ "" ∨
      ∃ resp, (fixture.provider.GetUser
          (fixture.userRuntime (fixture.refusing "connection refused")) "user123").reply =
            some (.ok resp) ∧
        isOK resp.StatusCode = false ∧
        userprovider.decodeUserProviderErrorJSON resp.Body = .ok
          { Code := "SystemError", Message := "Failed to send request",
            Description := "connection refused" }) :=
  have h := C4_code_populated_unless_decoded fixture.provider
    (fixture.userRuntime (fixture.refusing "connection refused"))
    fixture.authn (fixture.authnRuntime (fixture.refusing "connection refused"))
    () "user123" "" 10 5 none () () none "token" [] none
    { Code := "SystemError", Message := "Failed to send request",
      Description := "connection refused" }
    { Code := "", Message := "", Description := "" }
  ⟨rfl, h.2.1 rfl⟩

/-- The requests `Client.Get` hands to the transport carry no header. -/
theorem get_sent_header {B : Type} (c : Client) (net : Transport B) (url : String)
    (req : Request) (h : req ∈ (c.Get net url).sent) : req.Header = [] := by
  unfold Client.Get NewRequest at h
  cases hq : net.requestError MethodGet url <;> simp [hq, Client.Do] at h
  rw [h]

/-- The requests `Client.Post` hands to the transport carry the content type
and nothing else. -/
theorem post_sent_header {B : Type} (c : Client) (net : Transport B)
    (url contentType body : String) (req : Request)
    (h : req ∈ (c.Post net url contentType body).sent) :
    req.Header = Header.Set [] "Content-Type" contentType := by
  unfold Client.Post NewRequest at h
  cases hq : net.requestError MethodPost url <;> simp [hq, Client.Do] at h
  rw [h]

theorem plainHeader_get {B : Type} (c : Client) (net : Transport B) (url : String)
    (req : Request) (h : req ∈ (c.Get net url).sent) : plainHeader req :=
  Or.inl (get_sent_header c net url req h)

theorem plainHeader_post {B : Type} (c : Client) (net : Transport B) (url body : String)
    (req : Request) (h : req ∈ (c.Post net url "application/json" body).sent) :
    plainHeader req :=
  Or.inr (post_sent_header c net url "application/json" body req h)

theorem plainHeader_no_key (req : Request) (h : plainHeader req) :
    req.Header.Get "X-API-KEY" = "" := by
  rcases h with h | h <;> rw [h] <;> decide

theorem IdentifyUser_sent {B F U G : Type} (p : RestUserProvider)
    (rt : userprovider.Runtime B F U G) (filters : F) (req : Request)
    (h : req ∈ (p.IdentifyUser rt filters).sent) : plainHeader req := by
  unfold RestUserProvider.IdentifyUser at h
  cases hm : rt.marshalIdentifyUserRequest { Filters := filters } with
  | error err => simp [hm, Call.early] at h
  | ok jsonBody =>
    apply plainHeader_post p.httpClient rt.net (p.baseURL ++ "/identify") jsonBody
    simp only [hm] at h
    split at h
    · exact h
    · split at h
      · split at h <;> exact h
      · exact h

theorem GetUser_sent {B F U G : Type} (p : RestUserProvider)
    (rt : userprovider.Runtime B F U G) (userID : String) (req : Request)
    (h : req ∈ (p.GetUser rt userID).sent) : plainHeader req := by
  unfold RestUserProvider.GetUser at h
  apply plainHeader_get p.httpClient rt.net (p.baseURL ++ "/users/" ++ userID)
  simp only [] at h
  split at h
  · exact h
  · split at h
    · split at h <;> exact h
    · exact h

theorem GetUserGroups_sent {B F U G : Type} (p : RestUserProvider)
    (rt : userprovider.Runtime B F U G) (userID : String) (limit offset : Int) (req : Request)
    (h : req ∈ (p.GetUserGroups rt userID limit offset).sent) : plainHeader req := by
  unfold RestUserProvider.GetUserGroups at h
  cases hu : rt.urlParse (p.baseURL ++ "/users/" ++ userID ++ "/groups") with
  | error err => simp [hu, Call.early] at h
  | ok u =>
    apply plainHeader_get p.httpClient rt.net
      ({ u with RawQuery := (groupsQuery rt u limit offset).Encode } : neturl.URL).String
    simp only [hu] at h
    split at h
    · exact h
    · split at h
      · split at h <;> exact h
      · exact h

theorem put_sent_header {B : Type} (c : Client) (net : Transport B) (url : String)
    (body : Option String) (r req : Request) (hr : NewRequest net MethodPut url body = .ok r)
    (h : req ∈ (c.Do net
      { r with Header := r.Header.Set "Content-Type" "application/json" }).sent) :
    plainHeader req := by
  unfold NewRequest at hr
  cases hq : net.requestError MethodPut url <;> simp [hq] at hr
  subst hr
  simp [Client.Do] at h
  exact Or.inr (by rw [h])

theorem UpdateUser_sent {B F U G : Type} (p : RestUserProvider)
    (rt : userprovider.Runtime B F U G) (userID : String) (user : Option U) (req : Request)
    (h : req ∈ (p.UpdateUser rt userID user).sent) : plainHeader req := by
  unfold RestUserProvider.UpdateUser at h
  cases hm : rt.marshalUser user with
  | error err => simp [hm, Call.early] at h
  | ok jsonBody =>
    simp only [hm] at h
    cases hq : NewRequest rt.net MethodPut (p.baseURL ++ "/users/" ++ userID) (some jsonBody) with
    | error err => simp [hq, Call.early] at h
    | ok r =>
      apply put_sent_header p.httpClient rt.net _ _ r req hq
      simp only [hq] at h
      split at h
      · exact h
      · split at h
        · split at h <;> exact h
        · exact h

theorem CreateUser_sent {B F U G : Type} (p : RestUserProvider)
    (rt : userprovider.Runtime B F U G) (user : Option U) (req : Request)
    (h : req ∈ (p.CreateUser rt user).sent) : plainHeader req := by
  unfold RestUserProvider.CreateUser at h
  cases hm : rt.marshalUser user with
  | error err => simp [hm, Call.early] at h
  | ok jsonBody =>
    apply plainHeader_post p.httpClient rt.net (p.baseURL ++ "/users") jsonBody
    simp only [hm] at h
    split at h
    · exact h
    · split at h
      · split at h <;> exact h
      · exact h

theorem UpdateUserCredentials_sent {B F U G : Type} (p : RestUserProvider)
    (rt : userprovider.Runtime B F U G) (userID credentials : String) (req : Request)
    (h : req ∈ (p.UpdateUserCredentials rt userID credentials).sent) : plainHeader req := by
  unfold RestUserProvider.UpdateUserCredentials at h
  cases hq : NewRequest rt.net MethodPut (p.baseURL ++ "/users/" ++ userID ++ "/credentials")
      (some credentials) with
  | error err => simp [hq, Call.early] at h
  | ok r =>
    apply put_sent_header p.httpClient rt.net _ _ r req hq
    simp only [hq] at h
    split at h
    · exact h
    · split at h <;> exact h

/-- C5 fails on the code: no operation of the remote user provider puts a
credential on its request.  `NewRestUserProvider` takes a base URL and a
timeout only, and every request an operation sends has no `X-API-KEY`
header (`Header.Get` returns the empty string). -/
theorem C5_no_credential_header {B F U G : Type} (baseURL : String) (timeout : Int)
    (rt : userprovider.Runtime B F U G)
    (filters : F) (userID credentialsJSON : String) (limit offset : Int) (user : Option U)
    (req : Request)
    (hsent : req ∈ ((NewRestUserProvider baseURL timeout).IdentifyUser rt filters).sent ∨
      req ∈ ((NewRestUserProvider baseURL timeout).GetUser rt userID).sent ∨
      req ∈ ((NewRestUserProvider baseURL timeout).GetUserGroups rt userID limit offset).sent ∨
      req ∈ ((NewRestUserProvider baseURL timeout).UpdateUser rt userID user).sent ∨
      req ∈ ((NewRestUserProvider baseURL timeout).CreateUser rt user).sent ∨
      req ∈ ((NewRestUserProvider baseURL timeout).UpdateUserCredentials rt userID
        credentialsJSON).sent) :
    req.Header.Get "X-API-KEY" = "" := by
  apply plainHeader_no_key
  rcases hsent with h | h | h | h | h | h
  · exact IdentifyUser_sent _ rt filters req h
  · exact GetUser_sent _ rt userID req h
  · exact GetUserGroups_sent _ rt userID limit offset req h
  · exact UpdateUser_sent _ rt userID user req h
  · exact CreateUser_sent _ rt user req h
  · exact UpdateUserCredentials_sent _ rt userID credentialsJSON req h

/-- C5 at the request of `TestGetUser`: `GET /users/user123` is sent without an
`X-API-KEY` header. -/
theorem C5_no_credential_header_witness :
    ((NewRestUserProvider "http://peer" 1000000000).GetUser
      (fixture.userRuntime (fixture.answering 200 fixture.emptyObject)) "user123").sent =
      [{ Method := "GET", URL := "http://peer/users/user123", Header := [], Body := none }] ∧
    Header.Get [] "X-API-KEY" = "" :=
  ⟨rfl, C5_no_credential_header "http://peer" 1000000000
    (fixture.userRuntime (fixture.answering 200 fixture.emptyObject)) () "user123" "" 10 5 none
    { Method := "GET", URL := "http://peer/users/user123", Header := [], Body := none }
    (Or.inr (Or.inl (by decide)))⟩

/-- With 200 as the only success status, a response with another status gives
no result and an error. -/
theorem failure_of_other_status {B α E : Type} {systemError : String → String → E}
    {decode : B → Except String α} {decodeError : B → Except String E} {resp : Response B}
    (h : resp.StatusCode ≠ 200) :
    (outcome systemError isOK decode decodeError (.ok resp)).1 = none ∧
    (outcome systemError isOK decode decodeError (.ok resp)).2 ≠ none := by
  have hs : isOK resp.StatusCode = false := by simp [isOK, StatusOK, h]
  unfold outcome
  cases hd : decodeError resp.Body <;> simp [hs, hd]

theorem failure_of_other_status_no_result {B E : Type} {systemError : String → String → E}
    {decodeError : B → Except String E} {resp : Response B}
    (h : resp.StatusCode ≠ 200) :
    outcomeNoResult systemError isOK decodeError (.ok resp) ≠ none := by
  have hs : isOK resp.StatusCode = false := by simp [isOK, StatusOK, h]
  unfold outcomeNoResult
  cases hd : decodeError resp.Body <;> simp [hs, hd]

/-- A conforming call returns a nil error only after a response with status
200. -/
theorem status_of_nil_error {B α E : Type} {systemError : String → String → E}
    {decode : B → Except String α} {decodeError : B → Except String E}
    {c : Call B (Option α × Option E)}
    (h : Conforms systemError isOK decode decodeError c) (he : c.ret.2 = none) :
    ∃ b, c.reply = some (.ok { StatusCode := 200, Body := b }) := by
  rcases h with ⟨_, msg, cause, hret⟩ | ⟨r, hr, hret⟩
  · rw [hret] at he
    cases he
  · rw [hret] at he
    rcases r with cause | ⟨status, body⟩
    · cases he
    · by_cases hs : status = 200
      · subst hs
        exact ⟨body, hr⟩
      · exact absurd he (failure_of_other_status hs).2

theorem status_of_nil_error_no_result {B E : Type} {systemError : String → String → E}
    {decodeError : B → Except String E} {c : Call B (Option E)}
    (h : ConformsNoResult systemError isOK decodeError c) (he : c.ret = none) :
    ∃ b, c.reply = some (.ok { StatusCode := 200, Body := b }) := by
  rcases h with ⟨_, msg, cause, hret⟩ | ⟨r, hr, hret⟩
  · rw [hret] at he
    cases he
  · rw [hret] at he
    rcases r with cause | ⟨status, body⟩
    · cases he
    · by_cases hs : status = 200
      · subst hs
        exact ⟨body, hr⟩
      · exact absurd he (failure_of_other_status_no_result hs)

/-- C7: for every remote operation other than `CreateUser`, 200 is the only
success status.  On a response with any other status (201 and 204
included) the operation returns no result and a non-nil error, whatever the
body; and it returns a nil error only when the client obtained a response
with status 200. -/
theorem C7_only_200_is_success {B F U G B2 M A A2 R T : Type}
    (p : RestUserProvider) (rt : userprovider.Runtime B F U G)
    (pa : RestAuthnProvider) (rta : authnprovider.Runtime B2 M A A2 R T)
    (filters : F) (userID credentialsJSON : String) (limit offset : Int) (user : Option U)
    (identifiers credentials : M) (metadata : Option A)
    (token : String) (requestedAttributes : List String) (metadata2 : Option A2)
    (resp : Response B) (resp2 : Response B2)
    (hstatus : resp.StatusCode ≠ 200) (hstatus2 : resp2.StatusCode ≠ 200) :
    ((pa.Authenticate rta identifiers credentials metadata).reply = some (.ok resp2) →
      (pa.Authenticate rta identifiers credentials metadata).ret.1 = none ∧
      (pa.Authenticate rta identifiers credentials metadata).ret.2 ≠ none) ∧
    ((pa.GetAttributes rta token requestedAttributes metadata2).reply = some (.ok resp2) →
      (pa.GetAttributes rta token requestedAttributes metadata2).ret.1 = none ∧
      (pa.GetAttributes rta token requestedAttributes metadata2).ret.2 ≠ none) ∧
    ((p.IdentifyUser rt filters).reply = some (.ok resp) →
      (p.IdentifyUser rt filters).ret.1 = none ∧ (p.IdentifyUser rt filters).ret.2 ≠ none) ∧
    ((p.GetUser rt userID).reply = some (.ok resp) →
      (p.GetUser rt userID).ret.1 = none ∧ (p.GetUser rt userID).ret.2 ≠ none) ∧
    ((p.GetUserGroups rt userID limit offset).reply = some (.ok resp) →
      (p.GetUserGroups rt userID limit offset).ret.1 = none ∧
      (p.GetUserGroups rt userID limit offset).ret.2 ≠ none) ∧
    ((p.UpdateUser rt userID user).reply = some (.ok resp) →
      (p.UpdateUser rt userID user).ret.1 = none ∧ (p.UpdateUser rt userID user).ret.2 ≠ none) ∧
    ((p.UpdateUserCredentials rt userID credentialsJSON).reply = some (.ok resp) →
      (p.UpdateUserCredentials rt userID credentialsJSON).ret ≠ none) ∧
    ((pa.Authenticate rta identifiers credentials metadata).ret.2 = none →
      ∃ b, (pa.Authenticate rta identifiers credentials metadata).reply =
        some (.ok { StatusCode := 200, Body := b })) ∧
    ((pa.GetAttributes rta token requestedAttributes metadata2).ret.2 = none →
      ∃ b, (pa.GetAttributes rta token requestedAttributes metadata2).reply =
        some (.ok { StatusCode := 200, Body := b })) ∧
    ((p.IdentifyUser rt filters).ret.2 = none →
      ∃ b, (p.IdentifyUser rt filters).reply = some (.ok { StatusCode := 200, Body := b })) ∧
    ((p.GetUser rt userID).ret.2 = none →
      ∃ b, (p.GetUser rt userID).reply = some (.ok { StatusCode := 200, Body := b })) ∧
    ((p.GetUserGroups rt userID limit offset).ret.2 = none →
      ∃ b, (p.GetUserGroups rt userID limit offset).reply =
        some (.ok { StatusCode := 200, Body := b })) ∧
    ((p.UpdateUser rt userID user).ret.2 = none →
      ∃ b, (p.UpdateUser rt userID user).reply =
        some (.ok { StatusCode := 200, Body := b })) ∧
    ((p.UpdateUserCredentials rt userID credentialsJSON).ret = none →
      ∃ b, (p.UpdateUserCredentials rt userID credentialsJSON).reply =
        some (.ok { StatusCode := 200, Body := b })) := by
  refine ⟨?_, ?_, ?_, ?_, ?_, ?_, ?_, ?_, ?_, ?_, ?_, ?_, ?_, ?_⟩
  · intro hr
    rw [(Authenticate_conforms pa rta identifiers credentials metadata).ret_of_reply hr]
    exact failure_of_other_status hstatus2
  · intro hr
    rw [(GetAttributes_conforms pa rta token requestedAttributes metadata2).ret_of_reply hr]
    exact failure_of_other_status hstatus2
  · intro hr
    rw [(IdentifyUser_conforms p rt filters).ret_of_reply hr]
    exact failure_of_other_status hstatus
  · intro hr
    rw [(GetUser_conforms p rt userID).ret_of_reply hr]
    exact failure_of_other_status hstatus
  · intro hr
    rw [(GetUserGroups_conforms p rt userID limit offset).ret_of_reply hr]
    exact failure_of_other_status hstatus
  · intro hr
    rw [(UpdateUser_conforms p rt userID user).ret_of_reply hr]
    exact failure_of_other_status hstatus
  · intro hr
    rw [(UpdateUserCredentials_conforms p rt userID credentialsJSON).error_of_reply hr]
    exact failure_of_other_status_no_result hstatus
  · exact status_of_nil_error (Authenticate_conforms pa rta identifiers credentials metadata)
  · exact status_of_nil_error (GetAttributes_conforms pa rta token requestedAttributes metadata2)
  · exact status_of_nil_error (IdentifyUser_conforms p rt filters)
  · exact status_of_nil_error (GetUser_conforms p rt userID)
  · exact status_of_nil_error (GetUserGroups_conforms p rt userID limit offset)
  · exact status_of_nil_error (UpdateUser_conforms p rt userID user)
  · exact status_of_nil_error_no_result
      (UpdateUserCredentials_conforms p rt userID credentialsJSON)

/-- C7 at the test peer answering 201 and 204: `GetUser` and
`UpdateUserCredentials` fail. -/
theorem C7_only_200_is_success_witness :
    ((201 : Int) ≠ 200) ∧
    (fixture.provider.GetUser
      (fixture.userRuntime (fixture.answering 201 fixture.emptyObject)) "user123").ret.1 =
      none ∧
    (fixture.provider.GetUser
      (fixture.userRuntime (fixture.answering 201 fixture.emptyObject)) "user123").ret.2 ≠
      none :=
  have h := C7_only_200_is_success fixture.provider
    (fixture.userRuntime (fixture.answering 201 fixture.emptyObject))
    fixture.authn (fixture.authnRuntime (fixture.answering 204 fixture.emptyObject))
    () "user123" "" 10 5 none () () none "token" [] none
    { StatusCode := 201, Body := fixture.emptyObject }
    { StatusCode := 204, Body := fixture.emptyObject } (by decide) (by decide)
  ⟨by decide, (h.2.2.2.1 rfl).1, (h.2.2.2.1 rfl).2⟩

/-- C8: a body that does not decode becomes a system error that records the
decoder's text.  For each remote operation that decodes a body: when its
request is built and the transport answers it with a response, then on a
success status with a body the result decoder rejects with text `cause`,
and on any other status with a body the error decoder rejects with text
`cause`, the operation returns no result and an error with code
`SystemError` and description `cause`. -/
theorem C8_decode_failure_is_system_error {B F U G B2 M A A2 R T : Type}
    (p : RestUserProvider) (rt : userprovider.Runtime B F U G)
    (pa : RestAuthnProvider) (rta : authnprovider.Runtime B2 M A A2 R T)
    (filters : F) (userID credentialsJSON : String) (limit offset : Int) (user : Option U)
    (identifiers credentials : M) (metadata : Option A)
    (token : String) (requestedAttributes : List String) (metadata2 : Option A2)
    (identifyBody userBody authenticateBody attributesBody : String) (u : neturl.URL)
    (resp : Response B) (resp2 : Response B2) (cause : String) :
    (rt.marshalIdentifyUserRequest { Filters := filters } = .ok identifyBody →
      Answers rt.net p.httpClient
        (jsonRequest MethodPost (p.baseURL ++ "/identify") identifyBody)
        (.ok resp) →
      (resp.StatusCode = 200 → rt.decodeIdentifyUserResponse resp.Body = .error cause →
        (p.IdentifyUser rt filters).ret = (none, some
          { Code := userprovider.ErrorCodeSystemError, Message := "Failed to decode response",
            Description := cause })) ∧
      (resp.StatusCode ≠ 200 → rt.decodeUserProviderError resp.Body = .error cause →
        (p.IdentifyUser rt filters).ret = (none, some
          { Code := userprovider.ErrorCodeSystemError, Message := "Failed to decode error response",
            Description := cause }))) ∧
    (Answers rt.net p.httpClient
        (getRequest (p.baseURL ++ "/users/" ++ userID))
        (.ok resp) →
      (resp.StatusCode = 200 → rt.decodeUser resp.Body = .error cause →
        (p.GetUser rt userID).ret = (none, some
          { Code := userprovider.ErrorCodeSystemError, Message := "Failed to decode response",
            Description := cause })) ∧
      (resp.StatusCode ≠ 200 → rt.decodeUserProviderError resp.Body = .error cause →
        (p.GetUser rt userID).ret = (none, some
          { Code := userprovider.ErrorCodeSystemError, Message := "Failed to decode error response",
            Description := cause }))) ∧
    (rt.urlParse (p.baseURL ++ "/users/" ++ userID ++ "/groups") = .ok u →
      Answers rt.net p.httpClient
        (getRequest
        ({ u with RawQuery := (groupsQuery rt u limit offset).Encode } : neturl.URL).String)
        (.ok resp) →
      (resp.StatusCode = 200 → rt.decodeUserGroupListResponse resp.Body = .error cause →
        (p.GetUserGroups rt userID limit offset).ret = (none, some
          { Code := userprovider.ErrorCodeSystemError, Message := "Failed to decode response",
            Description := cause })) ∧
      (resp.StatusCode ≠ 200 → rt.decodeUserProviderError resp.Body = .error cause →
        (p.GetUserGroups rt userID limit offset).ret = (none, some
          { Code := userprovider.ErrorCodeSystemError, Message := "Failed to decode error response",
            Description := cause }))) ∧
    (rt.marshalUser user = .ok userBody →
      Answers rt.net p.httpClient
        (jsonRequest MethodPut (p.baseURL ++ "/users/" ++ userID) userBody)
        (.ok resp) →
      (resp.StatusCode = 200 → rt.decodeUser resp.Body = .error cause →
        (p.UpdateUser rt userID user).ret = (none, some
          { Code := userprovider.ErrorCodeSystemError, Message := "Failed to decode response",
            Description := cause })) ∧
      (resp.StatusCode ≠ 200 → rt.decodeUserProviderError resp.Body = .error cause →
        (p.UpdateUser rt userID user).ret = (none, some
          { Code := userprovider.ErrorCodeSystemError, Message := "Failed to decode error response",
            Description := cause }))) ∧
    (rt.marshalUser user = .ok userBody →
      Answers rt.net p.httpClient
        (jsonRequest MethodPost (p.baseURL ++ "/users") userBody)
        (.ok resp) →
      (resp.StatusCode = 201 ∨ resp.StatusCode = 200 → rt.decodeUser resp.Body = .error cause →
        (p.CreateUser rt user).ret = (none, some
          { Code := userprovider.ErrorCodeSystemError, Message := "Failed to decode response",
            Description := cause })) ∧
      (resp.StatusCode ≠ 201 → resp.StatusCode ≠ 200 → rt.decodeUserProviderError resp.Body = .error cause →
        (p.CreateUser rt user).ret = (none, some
          { Code := userprovider.ErrorCodeSystemError, Message := "Failed to decode error response",
            Description := cause }))) ∧
    (Answers rt.net p.httpClient
        (jsonRequest MethodPut (p.baseURL ++ "/users/" ++ userID ++ "/credentials")
        credentialsJSON)
        (.ok resp) →
      resp.StatusCode ≠ 200 → rt.decodeUserProviderError resp.Body = .error cause →
      (p.UpdateUserCredentials rt userID credentialsJSON).ret = some
        { Code := userprovider.ErrorCodeSystemError, Message := "Failed to decode error response",
          Description := cause }) ∧
    (rta.marshalAuthenticateRequest
        { Identifiers := identifiers, Credentials := credentials, Metadata := metadata } =
          .ok authenticateBody →
      Answers rta.net pa.httpClient
        (jsonRequest MethodPost (pa.baseURL ++ "/authenticate") authenticateBody)
        (.ok resp2) →
      (resp2.StatusCode = 200 → rta.decodeAuthnResult resp2.Body = .error cause →
        (pa.Authenticate rta identifiers credentials metadata).ret = (none, some
          { Code := authnprovider.ErrorCodeSystemError, Message := "Failed to decode response",
            Description := cause })) ∧
      (resp2.StatusCode ≠ 200 → rta.decodeAuthnProviderError resp2.Body = .error cause →
        (pa.Authenticate rta identifiers credentials metadata).ret = (none, some
          { Code := authnprovider.ErrorCodeSystemError, Message := "Failed to decode error response",
            Description := cause }))) ∧
    (rta.marshalGetAttributesRequest
        { Token := token, RequestedAttributes := requestedAttributes, Metadata := metadata2 } =
          .ok attributesBody →
      Answers rta.net pa.httpClient
        (jsonRequest MethodPost (pa.baseURL ++ "/attributes") attributesBody)
        (.ok resp2) →
      (resp2.StatusCode = 200 → rta.decodeGetAttributesResult resp2.Body = .error cause →
        (pa.GetAttributes rta token requestedAttributes metadata2).ret = (none, some
          { Code := authnprovider.ErrorCodeSystemError, Message := "Failed to decode response",
            Description := cause })) ∧
      (resp2.StatusCode ≠ 200 → rta.decodeAuthnProviderError resp2.Body = .error cause →
        (pa.GetAttributes rta token requestedAttributes metadata2).ret = (none, some
          { Code := authnprovider.ErrorCodeSystemError, Message := "Failed to decode error response",
            Description := cause }))) := by
  refine ⟨?_, ?_, ?_, ?_, ?_, ?_, ?_, ?_⟩
  · intro hm h
    have hr : (p.IdentifyUser rt filters).reply = some (.ok resp) := by
      rw [IdentifyUser_reaches p rt filters identifyBody hm h.1, h.2]
    rw [(IdentifyUser_conforms p rt filters).ret_of_reply hr]
    constructor
    · intro hs hd
      simp [outcome, isOK, StatusOK, hs, hd, Except.map, RestUserProvider.createSystemError, NewUserProviderError]
    · intro hs hd
      simp [outcome, isOK, StatusOK, hs, hd, RestUserProvider.createSystemError, NewUserProviderError]
  · intro h
    have hr : (p.GetUser rt userID).reply = some (.ok resp) := by
      rw [GetUser_reaches p rt userID h.1, h.2]
    rw [(GetUser_conforms p rt userID).ret_of_reply hr]
    constructor
    · intro hs hd
      simp [outcome, isOK, StatusOK, hs, hd, RestUserProvider.createSystemError, NewUserProviderError]
    · intro hs hd
      simp [outcome, isOK, StatusOK, hs, hd, RestUserProvider.createSystemError, NewUserProviderError]
  · intro hm h
    have hr : (p.GetUserGroups rt userID limit offset).reply = some (.ok resp) := by
      rw [GetUserGroups_reaches p rt userID limit offset u hm h.1, h.2]
    rw [(GetUserGroups_conforms p rt userID limit offset).ret_of_reply hr]
    constructor
    · intro hs hd
      simp [outcome, isOK, StatusOK, hs, hd, RestUserProvider.createSystemError, NewUserProviderError]
    · intro hs hd
      simp [outcome, isOK, StatusOK, hs, hd, RestUserProvider.createSystemError, NewUserProviderError]
  · intro hm h
    have hr : (p.UpdateUser rt userID user).reply = some (.ok resp) := by
      rw [UpdateUser_reaches p rt userID user userBody hm h.1, h.2]
    rw [(UpdateUser_conforms p rt userID user).ret_of_reply hr]
    constructor
    · intro hs hd
      simp [outcome, isOK, StatusOK, hs, hd, RestUserProvider.createSystemError, NewUserProviderError]
    · intro hs hd
      simp [outcome, isOK, StatusOK, hs, hd, RestUserProvider.createSystemError, NewUserProviderError]
  · intro hm h
    have hr : (p.CreateUser rt user).reply = some (.ok resp) := by
      rw [CreateUser_reaches p rt user userBody hm h.1, h.2]
    rw [(CreateUser_conforms p rt user).ret_of_reply hr]
    constructor
    · intro hs hd
      simp [outcome, isCreatedOrOK, StatusOK, StatusCreated, hs, hd, RestUserProvider.createSystemError, NewUserProviderError]
    · intro hc hs hd
      simp [outcome, isCreatedOrOK, StatusOK, StatusCreated, hs, hc, hd, RestUserProvider.createSystemError, NewUserProviderError]
  · intro h
    have hr : (p.UpdateUserCredentials rt userID credentialsJSON).reply = some (.ok resp) := by
      rw [UpdateUserCredentials_reaches p rt userID credentialsJSON h.1, h.2]
    rw [(UpdateUserCredentials_conforms p rt userID credentialsJSON).error_of_reply hr]
    intro hs hd
    simp [outcomeNoResult, isOK, StatusOK, hs, hd, RestUserProvider.createSystemError, NewUserProviderError]
  · intro hm h
    have hr : (pa.Authenticate rta identifiers credentials metadata).reply = some (.ok resp2) := by
      rw [Authenticate_reaches pa rta identifiers credentials metadata authenticateBody hm h.1, h.2]
    rw [(Authenticate_conforms pa rta identifiers credentials metadata).ret_of_reply hr]
    constructor
    · intro hs hd
      simp [outcome, isOK, StatusOK, hs, hd, NewError]
    · intro hs hd
      simp [outcome, isOK, StatusOK, hs, hd, NewError]
  · intro hm h
    have hr : (pa.GetAttributes rta token requestedAttributes metadata2).reply = some (.ok resp2) := by
      rw [GetAttributes_reaches pa rta token requestedAttributes metadata2 attributesBody hm h.1, h.2]
    rw [(GetAttributes_conforms pa rta token requestedAttributes metadata2).ret_of_reply hr]
    constructor
    · intro hs hd
      simp [outcome, isOK, StatusOK, hs, hd, NewError]
    · intro hs hd
      simp [outcome, isOK, StatusOK, hs, hd, NewError]

/-- C8 at a peer whose body is not JSON: on status 200 for each of the seven
operations that decode a result, and on status 500 for each of the eight
operations. -/
theorem C8_decode_failure_is_system_error_witness :
    Answers (fixture.garbledUser 200).net fixture.provider.httpClient
      (jsonRequest MethodPost "http://peer/identify" fixture.identifyBody)
      (.ok { StatusCode := 200, Body := .malformed "unexpected EOF" }) ∧
    (fixture.provider.IdentifyUser (fixture.garbledUser 200) ()).ret = (none, some
      { Code := "SystemError", Message := "Failed to decode response",
        Description := "unexpected EOF" }) ∧
    (fixture.provider.GetUser (fixture.garbledUser 200) "user123").ret = (none, some
      { Code := "SystemError", Message := "Failed to decode response",
        Description := "unexpected EOF" }) ∧
    (fixture.provider.GetUserGroups (fixture.garbledUser 200) "user123" 10 5).ret = (none, some
      { Code := "SystemError", Message := "Failed to decode response",
        Description := "unexpected EOF" }) ∧
    (fixture.provider.UpdateUser (fixture.garbledUser 200) "user123" none).ret = (none, some
      { Code := "SystemError", Message := "Failed to decode response",
        Description := "unexpected EOF" }) ∧
    (fixture.provider.CreateUser (fixture.garbledUser 200) none).ret = (none, some
      { Code := "SystemError", Message := "Failed to decode response",
        Description := "unexpected EOF" }) ∧
    (fixture.authn.Authenticate (fixture.garbledAuthn 200) () () none).ret = (none, some
      { Code := "SystemError", Message := "Failed to decode response",
        Description := "unexpected EOF" }) ∧
    (fixture.authn.GetAttributes (fixture.garbledAuthn 200) "token" [] none).ret = (none, some
      { Code := "SystemError", Message := "Failed to decode response",
        Description := "unexpected EOF" }) ∧
    (fixture.provider.IdentifyUser (fixture.garbledUser 500) ()).ret = (none, some
      { Code := "SystemError", Message := "Failed to decode error response",
        Description := "unexpected EOF" }) ∧
    (fixture.provider.GetUser (fixture.garbledUser 500) "user123").ret = (none, some
      { Code := "SystemError", Message := "Failed to decode error response",
        Description := "unexpected EOF" }) ∧
    (fixture.provider.GetUserGroups (fixture.garbledUser 500) "user123" 10 5).ret = (none, some
      { Code := "SystemError", Message := "Failed to decode error response",
        Description := "unexpected EOF" }) ∧
    (fixture.provider.UpdateUser (fixture.garbledUser 500) "user123" none).ret = (none, some
      { Code := "SystemError", Message := "Failed to decode error response",
        Description := "unexpected EOF" }) ∧
    (fixture.provider.CreateUser (fixture.garbledUser 500) none).ret = (none, some
      { Code := "SystemError", Message := "Failed to decode error response",
        Description := "unexpected EOF" }) ∧
    (fixture.provider.UpdateUserCredentials (fixture.garbledUser 500) "user123" "\x7b\x7d").ret =
      some
      { Code := "SystemError", Message := "Failed to decode error response",
        Description := "unexpected EOF" } ∧
    (fixture.authn.Authenticate (fixture.garbledAuthn 500) () () none).ret = (none, some
      { Code := "SystemError", Message := "Failed to decode error response",
        Description := "unexpected EOF" }) ∧
    (fixture.authn.GetAttributes (fixture.garbledAuthn 500) "token" [] none).ret = (none, some
      { Code := "SystemError", Message := "Failed to decode error response",
        Description := "unexpected EOF" }) :=
  have h := C8_decode_failure_is_system_error fixture.provider (fixture.garbledUser 200)
    fixture.authn (fixture.garbledAuthn 200) () "user123" "\x7b\x7d" 10 5 none () () none
    "token" [] none fixture.identifyBody "null" fixture.authenticateBody fixture.attributesBody
    fixture.groupsURL
    { StatusCode := 200, Body := .malformed "unexpected EOF" }
    { StatusCode := 200, Body := .malformed "unexpected EOF" } "unexpected EOF"
  have g := C8_decode_failure_is_system_error fixture.provider (fixture.garbledUser 500)
    fixture.authn (fixture.garbledAuthn 500) () "user123" "\x7b\x7d" 10 5 none () () none
    "token" [] none fixture.identifyBody "null" fixture.authenticateBody fixture.attributesBody
    fixture.groupsURL
    { StatusCode := 500, Body := .malformed "unexpected EOF" }
    { StatusCode := 500, Body := .malformed "unexpected EOF" } "unexpected EOF"
  ⟨⟨rfl, rfl⟩,
   (h.1 rfl ⟨rfl, rfl⟩).1 rfl rfl,
   (h.2.1 ⟨rfl, rfl⟩).1 rfl rfl,
   (h.2.2.1 rfl ⟨rfl, rfl⟩).1 rfl rfl,
   (h.2.2.2.1 rfl ⟨rfl, rfl⟩).1 rfl rfl,
   (h.2.2.2.2.1 rfl ⟨rfl, rfl⟩).1 (Or.inr rfl) rfl,
   (h.2.2.2.2.2.2.1 rfl ⟨rfl, rfl⟩).1 rfl rfl,
   (h.2.2.2.2.2.2.2 rfl ⟨rfl, rfl⟩).1 rfl rfl,
   (g.1 rfl ⟨rfl, rfl⟩).2 (by decide) rfl,
   (g.2.1 ⟨rfl, rfl⟩).2 (by decide) rfl,
   (g.2.2.1 rfl ⟨rfl, rfl⟩).2 (by decide) rfl,
   (g.2.2.2.1 rfl ⟨rfl, rfl⟩).2 (by decide) rfl,
   (g.2.2.2.2.1 rfl ⟨rfl, rfl⟩).2 (by decide) (by decide) rfl,
   g.2.2.2.2.2.1 ⟨rfl, rfl⟩ (by decide) rfl,
   (g.2.2.2.2.2.2.1 rfl ⟨rfl, rfl⟩).2 (by decide) rfl,
   (g.2.2.2.2.2.2.2 rfl ⟨rfl, rfl⟩).2 (by decide) rfl⟩

/-- C9: for every error `e` of the internal user service, `IdentifyUser` and
`GetUser` of the local delegate return no result and an error whose message
and description are those of `e` and whose code is `UserNotFound` when the
code of `e` is the not-found code of the service and `SystemError`
otherwise; so the code is `UserNotFound` exactly when `e` is the not-found
signal. -/
theorem C9_delegate_remaps_service_errors {F : Type} (d : defaultUserProvider F)
    (notFound : serviceerror.ServiceError) (filters : F) (userID : String)
    (e : serviceerror.ServiceError) :
    ((d.userSvc.IdentifyUser filters).2 = some e →
      ∃ err, d.IdentifyUser notFound filters = (none, some err) ∧
        err.Code = (if e.Code = notFound.Code then ErrorCodeUserNotFound
          else userprovider.ErrorCodeSystemError) ∧
        (err.Code = ErrorCodeUserNotFound ↔ e.Code = notFound.Code) ∧
        err.Message = e.Error ∧ err.Description = e.ErrorDescription) ∧
    ((d.userSvc.GetUser userID).2 = some e →
      ∃ err, d.GetUser notFound userID = some (none, some err) ∧
        err.Code = (if e.Code = notFound.Code then ErrorCodeUserNotFound
          else userprovider.ErrorCodeSystemError) ∧
        (err.Code = ErrorCodeUserNotFound ↔ e.Code = notFound.Code) ∧
        err.Message = e.Error ∧ err.Description = e.ErrorDescription) := by
  constructor
  · intro h
    unfold defaultUserProvider.IdentifyUser
    rcases hs : d.userSvc.IdentifyUser filters with ⟨res, err⟩
    rw [hs] at h
    cases h
    by_cases hc : e.Code = notFound.Code
    · refine ⟨NewUserProviderError ErrorCodeUserNotFound e.Error e.ErrorDescription,
        by simp [hc], ?_, ?_, rfl, rfl⟩
      · simp [hc, NewUserProviderError]
      · simp [hc, NewUserProviderError]
    · refine ⟨NewUserProviderError userprovider.ErrorCodeSystemError e.Error e.ErrorDescription,
        by simp [hc], ?_, ?_, rfl, rfl⟩
      · simp [hc, NewUserProviderError]
      · simp only [hc, NewUserProviderError, iff_false]
        decide
  · intro h
    unfold defaultUserProvider.GetUser
    rcases hs : d.userSvc.GetUser userID with ⟨res, err⟩
    rw [hs] at h
    cases h
    by_cases hc : e.Code = notFound.Code
    · refine ⟨NewUserProviderError ErrorCodeUserNotFound e.Error e.ErrorDescription,
        by simp [hc], ?_, ?_, rfl, rfl⟩
      · simp [hc, NewUserProviderError]
      · simp [hc, NewUserProviderError]
    · refine ⟨NewUserProviderError userprovider.ErrorCodeSystemError e.Error e.ErrorDescription,
        by simp [hc], ?_, ?_, rfl, rfl⟩
      · simp [hc, NewUserProviderError]
      · simp only [hc, NewUserProviderError, iff_false]
        decide

/-- C9 at a service that does not know the user and at one that is down. -/
theorem C9_delegate_remaps_service_errors_witness :
    (NewDefaultUserProvider fixture.userService).GetUser fixture.ErrorUserNotFound "nobody" =
      some (none, some
        { Code := "UserNotFound", Message := "User not found",
          Description := "The user with the specified id does not exist" }) ∧
    (NewDefaultUserProvider (fixture.failingService
        { Code := "USR-5000", Error := "Internal error", ErrorDescription := "store is down" })
      ).IdentifyUser fixture.ErrorUserNotFound () =
      (none, some
        { Code := "SystemError", Message := "Internal error",
          Description := "store is down" }) ∧
    (∃ err, (NewDefaultUserProvider fixture.userService).GetUser fixture.ErrorUserNotFound
        "nobody" = some (none, some err) ∧
      err.Code = (if fixture.ErrorUserNotFound.Code = fixture.ErrorUserNotFound.Code
        then ErrorCodeUserNotFound else userprovider.ErrorCodeSystemError) ∧
      (err.Code = ErrorCodeUserNotFound ↔
        fixture.ErrorUserNotFound.Code = fixture.ErrorUserNotFound.Code) ∧
      err.Message = fixture.ErrorUserNotFound.Error ∧
      err.Description = fixture.ErrorUserNotFound.ErrorDescription) :=
  ⟨rfl, rfl,
   (C9_delegate_remaps_service_errors (NewDefaultUserProvider fixture.userService)
      fixture.ErrorUserNotFound () "nobody" fixture.ErrorUserNotFound).2 rfl⟩

/-- C12: a zero timeout stands for ten seconds.  For every base URL and
credential, `InitializeRestAuthnProvider` with timeout 0 builds the provider
it builds with timeout `10 * time.Second`, whose client has that timeout;
with a timeout `t` other than 0 it builds the provider with exactly `t`. -/
theorem C12_zero_timeout_is_ten_seconds (baseURL apiKey : String) (t : Int) :
    InitializeRestAuthnProvider baseURL apiKey 0 =
      InitializeRestAuthnProvider baseURL apiKey (10 * time.Second) ∧
    (InitializeRestAuthnProvider baseURL apiKey 0).httpClient.Timeout = 10000000000 ∧
    (InitializeRestAuthnProvider baseURL apiKey 0).baseURL = baseURL ∧
    (t ≠ 0 →
      InitializeRestAuthnProvider baseURL apiKey t = NewRestAuthnProvider baseURL t ∧
      (InitializeRestAuthnProvider baseURL apiKey t).httpClient.Timeout = t) := by
  refine ⟨?_, ?_, ?_, ?_⟩
  · simp [InitializeRestAuthnProvider, time.Second]
  · simp [InitializeRestAuthnProvider, NewRestAuthnProvider, time.Second]
  · simp [InitializeRestAuthnProvider, NewRestAuthnProvider]
  · intro ht
    simp [InitializeRestAuthnProvider, NewRestAuthnProvider, ht]

/-- C12 at a timeout of three seconds. -/
theorem C12_zero_timeout_is_ten_seconds_witness :
    ((3000000000 : Int) ≠ 0) ∧
    InitializeRestAuthnProvider "http://peer" "test-api-key" 3000000000 =
      NewRestAuthnProvider "http://peer" 3000000000 ∧
    (InitializeRestAuthnProvider "http://peer" "test-api-key" 3000000000).httpClient.Timeout =
      3000000000 :=
  ⟨by decide,
   ((C12_zero_timeout_is_ten_seconds "http://peer" "test-api-key" 3000000000).2.2.2
      (by decide)).1,
   ((C12_zero_timeout_is_ten_seconds "http://peer" "test-api-key" 3000000000).2.2.2
      (by decide)).2⟩

open mgt encodingjson

theorem dropLiteral_sound : ∀ (lit s rest : List Char), dropLiteral lit s = some rest →
    s = lit ++ rest
  | [], s, rest, h => by
    cases s <;> simp [dropLiteral] at h <;> simp [h]
  | p :: ps, [], rest, h => by simp [dropLiteral] at h
  | p :: ps, c :: cs, rest, h => by
    by_cases hpc : p = c
    · simp [dropLiteral, hpc] at h
      simp [hpc, dropLiteral_sound ps cs rest h]
    · simp [dropLiteral, hpc] at h

theorem longestKey_sound : ∀ (t k : List Char), longestKey t = some k →
    ':' ∉ k ∧ ∃ after, t = k ++ closing ++ after
  | [], k, h => by simp [longestKey] at h
  | c :: cs, k, h => by
    unfold longestKey at h
    by_cases hc : c = ':'
    · subst hc
      simp only [if_true] at h
      split at h
      · rename_i hsome
        cases h
        obtain ⟨r, hr⟩ := Option.isSome_iff_exists.mp hsome
        exact ⟨by simp, r, by simpa using dropLiteral_sound closing _ r hr⟩
      · cases h
    · simp only [hc, if_false] at h
      cases hk : longestKey cs with
      | some k' =>
        simp only [hk] at h
        cases h
        obtain ⟨h1, after, h2⟩ := longestKey_sound cs k' hk
        refine ⟨?_, after, by simp [h2]⟩
        simp only [List.mem_cons, not_or]
        exact ⟨fun e => hc e.symm, h1⟩
      | none =>
        simp only [hk] at h
        split at h
        · rename_i hsome
          cases h
          obtain ⟨r, hr⟩ := Option.isSome_iff_exists.mp hsome
          exact ⟨by simp, r, by simpa using dropLiteral_sound closing _ r hr⟩
        · cases h

theorem dropWhile_head (p : Char → Bool) : ∀ (l : List Char) (x : Char) (xs : List Char),
    l.dropWhile p = x :: xs → p x = false
  | [], x, xs, h => by simp at h
  | a :: l, x, xs, h => by
    cases hp : p a
    · simp only [List.dropWhile, hp, List.cons.injEq] at h
      rw [← h.1]
      exact hp
    · simp only [List.dropWhile, hp] at h
      exact dropWhile_head p l x xs h

theorem matchAt_sound (s ns key : List Char) (h : matchAt s = some (ns, key)) :
    ns ≠ [] ∧ key ≠ [] ∧ ':' ∉ ns ∧ ':' ∉ key ∧
    ∃ after, s = opening ++ ns ++ [':'] ++ key ++ closing ++ after := by
  unfold matchAt at h
  cases hd : dropLiteral opening s with
  | none => simp [hd] at h
  | some rest =>
    simp only [hd] at h
    have hs := dropLiteral_sound opening s rest hd
    have hsplit := List.takeWhile_append_dropWhile (fun c => decide (c ≠ ':')) rest
    have hns : ':' ∉ rest.takeWhile (fun c => decide (c ≠ ':')) := by
      intro hmem
      simpa using List.mem_takeWhile_imp hmem
    split at h
    · cases h
    · cases h
    · cases h
    · rename_i n ns' colon c cs htake hdrop
      have hcolon : colon = ':' := by
        have := dropWhile_head (fun c => decide (c ≠ ':')) rest colon (c :: cs) hdrop
        simpa using this
      by_cases hc : c = ':'
      · simp [hc] at h
      · simp only [hc, if_false] at h
        cases hk : longestKey cs with
        | none => simp [hk] at h
        | some k =>
          simp only [hk, Option.some.injEq, Prod.mk.injEq] at h
          obtain ⟨h1, h2⟩ := h
          subst h1 h2
          obtain ⟨hk1, after, hk2⟩ := longestKey_sound cs k hk
          refine ⟨by simp, by simp, ?_, ?_, after, ?_⟩
          · rw [← htake]
            exact hns
          · simp only [List.mem_cons, not_or]
            exact ⟨fun e => hc e.symm, hk1⟩
          · rw [hs, ← hsplit, htake, hdrop, hcolon, hk2]
            simp

theorem findSubmatch_sound : ∀ (s ns key : List Char), findSubmatch s = some (ns, key) →
    ns ≠ [] ∧ key ≠ [] ∧ ':' ∉ ns ∧ ':' ∉ key ∧
    ∃ before after, s = before ++ (opening ++ ns ++ [':'] ++ key ++ closing) ++ after
  | [], ns, key, h => by simp [findSubmatch] at h
  | c :: cs, ns, key, h => by
    unfold findSubmatch at h
    cases hm : matchAt (c :: cs) with
    | some m =>
      simp only [hm, Option.some.injEq] at h
      subst h
      obtain ⟨h1, h2, h3, h4, after, h5⟩ := matchAt_sound (c :: cs) ns key hm
      exact ⟨h1, h2, h3, h4, [], after, by simpa using h5⟩
    | none =>
      simp only [hm] at h
      obtain ⟨h1, h2, h3, h4, before, after, h5⟩ := findSubmatch_sound cs ns key h
      exact ⟨h1, h2, h3, h4, c :: before, after, by simp [h5]⟩

/-- What `FindStringSubmatch` returns is a placeholder of the string. -/
theorem found_is_placeholder (s full ns key : String)
    (h : translationRegex.FindStringSubmatch s = [full, ns, key]) : HasPlaceholder s ns key := by
  unfold translationRegex.FindStringSubmatch at h
  cases hf : findSubmatch s.data with
  | none => simp [hf] at h
  | some m =>
    obtain ⟨n, k⟩ := m
    simp only [hf, List.cons.injEq, and_true] at h
    obtain ⟨_, hn, hk⟩ := h
    subst hn hk
    obtain ⟨h1, h2, h3, h4, before, after, h5⟩ := findSubmatch_sound s.data n k hf
    refine ⟨?_, ?_, h3, h4, before, after, h5⟩
    · intro e
      exact h1 (congrArg String.data e)
    · intro e
      exact h2 (congrArg String.data e)

/-- `FindStringSubmatch` returns the empty slice or a slice of three. -/
theorem found_none_or_three (s : String) :
    translationRegex.FindStringSubmatch s = [] ∨
    ∃ full ns key, translationRegex.FindStringSubmatch s = [full, ns, key] := by
  unfold translationRegex.FindStringSubmatch
  cases hf : findSubmatch s.data with
  | none => exact Or.inl rfl
  | some m => exact Or.inr ⟨_, _, _, rfl⟩

/-- A string leaf whose placeholder, if it has one, fails to resolve is
returned as it is. -/
theorem string_kept {E : Type} (svc : I18nServiceInterface E) (language s : String)
    (h : NoPlaceholder s ∨ FoundPlaceholderFails svc language s) :
    recursiveTranslate (.string s) svc language = .string s := by
  unfold recursiveTranslate
  rcases h with h | ⟨full, ns, key, e, hfound, herr⟩
  · rcases found_none_or_three s with h0 | ⟨full, ns, key, h3⟩
    · simp [h0]
    · exact absurd ⟨ns, key, found_is_placeholder s full ns key h3⟩ h
  · simp [hfound, herr]

mutual

theorem translate_fixed {E : Type} (svc : I18nServiceInterface E) (language : String) :
    ∀ v : Value,
      (∀ s, StringLeaf v s → NoPlaceholder s ∨ FoundPlaceholderFails svc language s) →
      recursiveTranslate v svc language = v
  | .string s, h => string_kept svc language s (h s (.leaf s))
  | .object members, h => by
    rw [recursiveTranslate, translateMap_fixed svc language members
      (fun k x hx s hs => h s (.member hx hs))]
  | .array items, h => by
    rw [recursiveTranslate, translateSlice_fixed svc language items
      (fun x hx s hs => h s (.item hx hs))]
  | .null, _ => by rw [recursiveTranslate]
  | .bool _, _ => by rw [recursiveTranslate]
  | .number _, _ => by rw [recursiveTranslate]

theorem translateMap_fixed {E : Type} (svc : I18nServiceInterface E) (language : String) :
    ∀ members : List (String × Value),
      (∀ k x, (k, x) ∈ members → ∀ s, StringLeaf x s →
        NoPlaceholder s ∨ FoundPlaceholderFails svc language s) →
      translateMap members svc language = members
  | [], _ => by rw [translateMap]
  | (k, v) :: rest, h => by
    rw [translateMap, translate_fixed svc language v (h k v (List.mem_cons_self _ _)),
      translateMap_fixed svc language rest
        (fun k' x hx => h k' x (List.mem_cons_of_mem _ hx))]

theorem translateSlice_fixed {E : Type} (svc : I18nServiceInterface E) (language : String) :
    ∀ items : List Value,
      (∀ x, x ∈ items → ∀ s, StringLeaf x s →
        NoPlaceholder s ∨ FoundPlaceholderFails svc language s) →
      translateSlice items svc language = items
  | [], _ => by rw [translateSlice]
  | v :: rest, h => by
    rw [translateSlice, translate_fixed svc language v (h v (List.mem_cons_self _ _)),
      translateSlice_fixed svc language rest (fun x hx => h x (List.mem_cons_of_mem _ hx))]

end

mutual

theorem translate_skeleton {E : Type} (svc : I18nServiceInterface E) (language : String) :
    ∀ v : Value, skeleton (recursiveTranslate v svc language) = skeleton v
  | .string s => by
    rw [recursiveTranslate]
    split
    · split <;> simp only [skeleton]
    · rfl
  | .object members => by
    rw [recursiveTranslate, skeleton, skeleton, translateMap_skeleton svc language members]
  | .array items => by
    rw [recursiveTranslate, skeleton, skeleton, translateSlice_skeleton svc language items]
  | .null => by rw [recursiveTranslate]
  | .bool _ => by rw [recursiveTranslate]
  | .number _ => by rw [recursiveTranslate]

theorem translateMap_skeleton {E : Type} (svc : I18nServiceInterface E) (language : String) :
    ∀ members : List (String × Value),
      skeletonMap (translateMap members svc language) = skeletonMap members
  | [] => by rw [translateMap]
  | (k, v) :: rest => by
    rw [translateMap, skeletonMap, skeletonMap, translate_skeleton svc language v,
      translateMap_skeleton svc language rest]

theorem translateSlice_skeleton {E : Type} (svc : I18nServiceInterface E) (language : String) :
    ∀ items : List Value,
      skeletonSlice (translateSlice items svc language) = skeletonSlice items
  | [] => by rw [translateSlice]
  | v :: rest => by
    rw [translateSlice, skeletonSlice, skeletonSlice, translate_skeleton svc language v,
      translateSlice_skeleton svc language rest]

end

/-- C13, as stated, fails: the leaf `{{t(a:b)}} {{t(c:d)}}` has a placeholder
for which the service returns an error, `c:d`, and yet it is replaced: the
pattern finds `a:b` first, the service resolves it, and the whole leaf
becomes the translation `Hello`. -/
theorem C13_translate_identity_counterexample :
    ¬ ((∀ s, StringLeaf (.string "\x7b\x7bt(a:b)\x7d\x7d \x7b\x7bt(c:d)\x7d\x7d") s →
          NoPlaceholder s ∨ SomePlaceholderFails fixture.i18nService "en" s) →
        recursiveTranslate (.string "\x7b\x7bt(a:b)\x7d\x7d \x7b\x7bt(c:d)\x7d\x7d")
          fixture.i18nService "en" =
          .string "\x7b\x7bt(a:b)\x7d\x7d \x7b\x7bt(c:d)\x7d\x7d") := by
  intro h
  have hleaf : ∀ s, StringLeaf (.string "\x7b\x7bt(a:b)\x7d\x7d \x7b\x7bt(c:d)\x7d\x7d") s →
      NoPlaceholder s ∨ SomePlaceholderFails fixture.i18nService "en" s := by
    intro s hs
    cases hs
    exact Or.inr ⟨"c", "d", "translation not found",
      ⟨by decide, by decide, by decide, by decide,
        "\x7b\x7bt(a:b)\x7d\x7d ".data, [], by decide⟩, rfl⟩
  have hres : recursiveTranslate
      (.string "\x7b\x7bt(a:b)\x7d\x7d \x7b\x7bt(c:d)\x7d\x7d") fixture.i18nService "en" =
      .string "Hello" := rfl
  have heq := h hleaf
  rw [hres] at heq
  injection heq with hstr
  exact absurd hstr (by decide)

/-- C13, amended: `recursiveTranslate` returns the value it was given (same
map keys, same slice lengths and order, same leaves) whenever each string
leaf either holds no placeholder or the placeholder the pattern finds in it,
its leftmost match, is one for which the service returns an error.  Leaves
that are not strings are never changed: `null`, booleans and numbers are
returned as they are, and for every value and every service the result has
the keys, the slice lengths and order and the non-string leaves of the
input. -/
theorem C13_translate_identity_when_found_fails {E : Type} (svc : I18nServiceInterface E)
    (language : String) (v : Value)
    (h : ∀ s, StringLeaf v s → NoPlaceholder s ∨ FoundPlaceholderFails svc language s) :
    recursiveTranslate v svc language = v ∧
    recursiveTranslate .null svc language = .null ∧
    (∀ b, recursiveTranslate (.bool b) svc language = .bool b) ∧
    (∀ lit, recursiveTranslate (.number lit) svc language = .number lit) ∧
    ∀ w : Value, skeleton (recursiveTranslate w svc language) = skeleton w :=
  ⟨translate_fixed svc language v h, by rw [recursiveTranslate],
   fun b => by rw [recursiveTranslate], fun lit => by rw [recursiveTranslate],
   translate_skeleton svc language⟩

/-- C13, amended, at the body `{"message": "{{t(c:d)}}", "count": 3}` and a
service that has no translation for `c:d`. -/
theorem C13_translate_identity_when_found_fails_witness :
    recursiveTranslate
      (.object [("message", .string "\x7b\x7bt(c:d)\x7d\x7d"), ("count", .number "3")])
      fixture.i18nService "en" =
      .object [("message", .string "\x7b\x7bt(c:d)\x7d\x7d"), ("count", .number "3")] :=
  (C13_translate_identity_when_found_fails fixture.i18nService "en"
    (.object [("message", .string "\x7b\x7bt(c:d)\x7d\x7d"), ("count", .number "3")])
    (by
      intro s hs
      cases hs with
      | member hmem hleaf =>
        simp only [List.mem_cons, Prod.mk.injEq, List.mem_singleton, List.not_mem_nil,
          or_false] at hmem
        rcases hmem with ⟨_, hx⟩ | ⟨_, hx⟩
        · subst hx
          cases hleaf
          exact Or.inr ⟨"\x7b\x7bt(c:d)\x7d\x7d", "c", "d", "translation not found", rfl, rfl⟩
        · subst hx
          cases hleaf)).1

end claims
